import Mathlib

/-!
# Verification of the loan-system backend

Shallow embedding of the loan-application backend (Python, FastAPI +
SQLAlchemy) and proofs about its specification.  The embedding follows the
source files under `backend/app/`:

* `core/pii_encryption.py` — document hashing and PII field encryption;
* `strategies/` — the per-country validation / risk strategies;
* `repositories/loan_repository.py`, `repositories/job_repository.py` —
  the loan store and the durable job queue;
* `services/loan_service.py` — the application service;
* `workers/risk_worker.py` — the risk-evaluation worker;
* `api/v1/webhooks/router.py` — the inbound banking-webhook handler.

Timestamps are modelled as `Int` (an abstract linear clock), Python
`Decimal` amounts as `Rat`, database rows as Lean structures and tables as
lists of rows.  A database sequence / UUID generator is modelled by a
counter carried in the state.
-/

namespace LoanSystem

/-! ## Status enums (`models/loan.py`, `models/job.py`) -/

/-- `LoanStatus` from `app/models/loan.py`. -/
inductive LoanStatus where
  | PENDING
  | VALIDATING
  | IN_REVIEW
  | APPROVED
  | REJECTED
  | CANCELLED
  | DISBURSED
  | COMPLETED
deriving DecidableEq, Repr, BEq

/-- `JobStatus` from `app/models/job.py`. -/
inductive JobStatus where
  | PENDING
  | RUNNING
  | COMPLETED
  | FAILED
  | CANCELLED
deriving DecidableEq, Repr, BEq

/-! ## Python string primitives

`str.upper`, `str.strip` and UTF-8 encoding, as used by
`PIIEncryption.hash_document` and `LoanService.hash_document`.  Python's
`str.upper` on the ASCII range maps `'a'..'z'` to `'A'..'Z'`; the
country codes and document numbers handled by the system are ASCII. -/

/-- ASCII uppercase of one character (`str.upper`, restricted to ASCII). -/
def pyUpperChar (c : Char) : Char :=
  if 'a' ≤ c ∧ c ≤ 'z' then Char.ofNat (c.toNat - 32) else c

/-- `str.upper` (character-wise map). -/
def pyUpper (s : String) : String :=
  ⟨s.data.map pyUpperChar⟩

/-- Python whitespace characters recognised by `str.strip`. -/
def isPySpace (c : Char) : Bool :=
  c = ' ' ∨ c = '\t' ∨ c = '\n' ∨ c = '\x0d' ∨ c = '\x0b' ∨ c = '\x0c'

/-- Remove trailing whitespace from a character list (`str.rstrip`). -/
def rstripList (l : List Char) : List Char :=
  (l.reverse.dropWhile isPySpace).reverse

/-- `str.strip`: drop trailing then leading whitespace (the two sides are
independent, so this equals Python's simultaneous two-sided strip). -/
def pyStrip (s : String) : String :=
  ⟨(rstripList s.data).dropWhile isPySpace⟩

/-- UTF-8 encoding of a single code point, as a list of byte values. -/
def utf8Char (n : Nat) : List Nat :=
  if n < 0x80 then [n]
  else if n < 0x800 then
    [0xc0 + n / 64, 0x80 + n % 64]
  else if n < 0x10000 then
    [0xe0 + n / 4096, 0x80 + (n / 64) % 64, 0x80 + n % 64]
  else
    [0xf0 + n / 262144, 0x80 + (n / 4096) % 64, 0x80 + (n / 64) % 64,
     0x80 + n % 64]

/-- `str.encode()`: UTF-8 bytes of a string. -/
def strBytes (s : String) : List Nat :=
  s.data.flatMap (fun c => utf8Char c.toNat)

/-! ## SHA-256 (`hashlib.sha256`)

Word-level implementation over `Nat` with explicit reduction modulo
`2 ^ 32`; bytes are big-endian as in FIPS 180-4. -/

def w32 : Nat := 4294967296

/-- 32-bit right rotation. -/
def rotr (k x : Nat) : Nat :=
  ((x >>> k) ||| (x <<< (32 - k))) % w32

def shaCh (x y z : Nat) : Nat := (x &&& y) ^^^ ((x ^^^ 4294967295) &&& z)

def shaMaj (x y z : Nat) : Nat := (x &&& y) ^^^ (x &&& z) ^^^ (y &&& z)

def bigSigma0 (x : Nat) : Nat := rotr 2 x ^^^ rotr 13 x ^^^ rotr 22 x

def bigSigma1 (x : Nat) : Nat := rotr 6 x ^^^ rotr 11 x ^^^ rotr 25 x

def smallSigma0 (x : Nat) : Nat := rotr 7 x ^^^ rotr 18 x ^^^ (x >>> 3)

def smallSigma1 (x : Nat) : Nat := rotr 17 x ^^^ rotr 19 x ^^^ (x >>> 10)

/-- SHA-256 round constants (FIPS 180-4 §4.2.2), in decimal. -/
def shaK : List Nat :=
  [1116352408, 1899447441, 3049323471, 3921009573, 961987163,
   1508970993, 2453635748, 2870763221, 3624381080, 310598401,
   607225278, 1426881987, 1925078388, 2162078206, 2614888103,
   3248222580, 3835390401, 4022224774, 264347078, 604807628,
   770255983, 1249150122, 1555081692, 1996064986, 2554220882,
   2821834349, 2952996808, 3210313671, 3336571891, 3584528711,
   113926993, 338241895, 666307205, 773529912, 1294757372,
   1396182291, 1695183700, 1986661051, 2177026350, 2456956037,
   2730485921, 2820302411, 3259730800, 3345764771, 3516065817,
   3600352804, 4094571909, 275423344, 430227734, 506948616,
   659060556, 883997877, 958139571, 1322822218, 1537002063,
   1747873779, 1955562222, 2024104815, 2227730452, 2361852424,
   2428436474, 2756734187, 3204031479, 3329325298]

/-- SHA-256 initial hash value (FIPS 180-4 §5.3.3), in decimal. -/
def shaH0 : List Nat :=
  [1779033703, 3144134277, 1013904242, 2773480762,
   1359893119, 2600822924, 528734635, 1541459225]

/-- Pad a message (FIPS 180-4 §5.1.1): append `0x80`, zeros, and the
64-bit big-endian bit length. -/
def shaPad (msg : List Nat) : List Nat :=
  let len := msg.length
  let zeros := (55 + 64 - len % 64) % 64
  let bitLen := len * 8
  msg ++ [0x80] ++ List.replicate zeros 0 ++
    [(bitLen >>> 56) % 256, (bitLen >>> 48) % 256, (bitLen >>> 40) % 256,
     (bitLen >>> 32) % 256, (bitLen >>> 24) % 256, (bitLen >>> 16) % 256,
     (bitLen >>> 8) % 256, bitLen % 256]

/-- Group bytes into big-endian 32-bit words. -/
def bytesToWords : List Nat → List Nat
  | b0 :: b1 :: b2 :: b3 :: rest =>
      (b0 * 16777216 + b1 * 65536 + b2 * 256 + b3) :: bytesToWords rest
  | _ => []

/-- Extend 16 words to the 64-entry message schedule.  `ws` accumulates
the schedule in reverse order. -/
def shaExtend : Nat → List Nat → List Nat
  | 0, ws => ws
  | n + 1, ws =>
      let w2 := (ws.drop 1).headD 0
      let w7 := (ws.drop 6).headD 0
      let w15 := (ws.drop 14).headD 0
      let w16 := (ws.drop 15).headD 0
      let next := (smallSigma1 w2 + w7 + smallSigma0 w15 + w16) % w32
      shaExtend n (next :: ws)

/-- One round of the SHA-256 compression function.  State is
`[a, b, c, d, e, f, g, h]`. -/
def shaRound (st : List Nat) (k wt : Nat) : List Nat :=
  match st with
  | [a, b, c, d, e, f, g, h] =>
      let t1 := (h + bigSigma1 e + shaCh e f g + k + wt) % w32
      let t2 := (bigSigma0 a + shaMaj a b c) % w32
      [(t1 + t2) % w32, a, b, c, (d + t1) % w32, e, f, g]
  | other => other

/-- Compress one 64-byte block into the running hash. -/
def shaBlock (h : List Nat) (block : List Nat) : List Nat :=
  let w16 := bytesToWords block
  let sched := (shaExtend 48 w16.reverse).reverse
  let st := (shaK.zip sched).foldl (fun s kw => shaRound s kw.1 kw.2) h
  (h.zip st).map (fun p => (p.1 + p.2) % w32)

/-- Split a list into chunks of 64 (structural recursion on a fuel
bounded by the length, so that the kernel can evaluate it). -/
def chunksAux : Nat → List Nat → List (List Nat)
  | 0, _ => []
  | _ + 1, [] => []
  | n + 1, l => l.take 64 :: chunksAux n (l.drop 64)

/-- Split a list into chunks of 64. -/
def chunks64 (l : List Nat) : List (List Nat) :=
  chunksAux l.length l

/-- SHA-256 digest of a byte list, as eight 32-bit words. -/
def sha256Words (msg : List Nat) : List Nat :=
  (chunks64 (shaPad msg)).foldl shaBlock shaH0

def hexDigit (n : Nat) : Char :=
  if n < 10 then Char.ofNat (48 + n) else Char.ofNat (87 + n)

/-- Lowercase hex of one 32-bit word (8 digits). -/
def wordToHex (x : Nat) : List Char :=
  [hexDigit ((x >>> 28) % 16), hexDigit ((x >>> 24) % 16),
   hexDigit ((x >>> 20) % 16), hexDigit ((x >>> 16) % 16),
   hexDigit ((x >>> 12) % 16), hexDigit ((x >>> 8) % 16),
   hexDigit ((x >>> 4) % 16), hexDigit (x % 16)]

/-- `hashlib.sha256(data).hexdigest()`: 64-char lowercase hex digest. -/
def sha256Hex (msg : List Nat) : String :=
  ⟨(sha256Words msg).flatMap wordToHex⟩

/-! ## Document hashing (`core/pii_encryption.py`, `services/loan_service.py`) -/

/-- `PIIEncryption.hash_document` (`core/pii_encryption.py:95`):
`combined = f"{country_code}:{document_number}".upper().strip()`,
then `sha256(combined.encode()).hexdigest()`. -/
def PIIEncryption.hash_document (document_number country_code : String) : String :=
  sha256Hex (strBytes (pyStrip (pyUpper (country_code ++ ":" ++ document_number))))

/-- `LoanService.hash_document` (`services/loan_service.py:59`):
`combined = f"{country_code}:{document_number}".upper()` (no strip),
then `sha256(combined.encode()).hexdigest()`. -/
def LoanService.hash_document (document_number country_code : String) : String :=
  sha256Hex (strBytes (pyUpper (country_code ++ ":" ++ document_number)))

/-! ## PII field encryption (`core/pii_encryption.py`)

`PIIEncryption.encrypt/decrypt` delegate to `cryptography.fernet.Fernet`,
an external library.  Its documented contract — decryption inverts
encryption, and a Fernet token is never the empty string — is modelled as
a bundled cipher; the repository code proper is the empty-string guard
around the library calls. -/

/-- The contract of `cryptography.fernet.Fernet` (external library):
an authenticated symmetric cipher whose decrypt inverts encrypt and whose
tokens are non-empty. -/
structure FernetCipher where
  enc : String → String
  dec : String → String
  dec_enc : ∀ s, dec (enc s) = s
  enc_ne : ∀ s, enc s ≠ ""

/-- `PIIEncryption.encrypt` (`core/pii_encryption.py:53`):
`if not plaintext: return ""` then `fernet.encrypt(...)`. -/
def PIIEncryption.encrypt (F : FernetCipher) (plaintext : String) : String :=
  if plaintext = "" then "" else F.enc plaintext

/-- `PIIEncryption.decrypt` (`core/pii_encryption.py:74`):
`if not ciphertext: return ""` then `fernet.decrypt(...)`. -/
def PIIEncryption.decrypt (F : FernetCipher) (ciphertext : String) : String :=
  if ciphertext = "" then "" else F.dec ciphertext

/-! ## Validation results and banking info (`strategies/base.py`) -/

/-- A value stored in `ValidationResult.risk_factors` (Python `Any`:
booleans, ints and floats occur in the source). -/
inductive RiskVal where
  | b (v : Bool)
  | i (v : Int)
  | q (v : Rat)
deriving DecidableEq, Repr

/-- `ValidationResult` (`strategies/base.py:27`). `risk_factors` is a
Python dict, modelled as an association list with dict update semantics. -/
structure ValidationResult where
  is_valid : Bool
  errors : List String := []
  warnings : List String := []
  requires_review : Bool := false
  risk_factors : List (String × RiskVal) := []
deriving DecidableEq, Repr

/-- `ValidationResult.add_error`: append the message and clear validity. -/
def ValidationResult.add_error (r : ValidationResult) (e : String) : ValidationResult :=
  { r with errors := r.errors ++ [e], is_valid := false }

/-- `ValidationResult.add_warning`. -/
def ValidationResult.add_warning (r : ValidationResult) (w : String) : ValidationResult :=
  { r with warnings := r.warnings ++ [w] }

/-- Python dict assignment `d[k] = v`: update in place, or append. -/
def dictSet (l : List (String × RiskVal)) (k : String) (v : RiskVal) :
    List (String × RiskVal) :=
  if l.any (fun p => p.1 = k) then
    l.map (fun p => if p.1 = k then (k, v) else p)
  else l ++ [(k, v)]

/-- `result.risk_factors[k] = v`. -/
def ValidationResult.setRF (r : ValidationResult) (k : String) (v : RiskVal) :
    ValidationResult :=
  { r with risk_factors := dictSet r.risk_factors k v }

/-- Python dict merge `{**a, **b}`: keys of `a` (values overridden by `b`
where present) followed by the new keys of `b`. -/
def dictMerge (a b : List (String × RiskVal)) : List (String × RiskVal) :=
  a.map (fun p => ((b.find? (fun q => q.1 = p.1)).getD p)) ++
    b.filter (fun q => ¬ a.any (fun p => p.1 = q.1))

/-- `ValidationResult.merge` (`strategies/base.py:46`). -/
def ValidationResult.merge (r other : ValidationResult) : ValidationResult :=
  { is_valid := r.is_valid ∧ other.is_valid
    errors := r.errors ++ other.errors
    warnings := r.warnings ++ other.warnings
    requires_review := r.requires_review ∨ other.requires_review
    risk_factors := dictMerge r.risk_factors other.risk_factors }

/-- `BankingInfo` (`strategies/base.py:57`).  Python `Decimal` fields are
modelled as `Rat`; `raw_data` keeps only the `error` key written by the
service's provider-failure fallback. -/
structure BankingInfo where
  provider_name : String
  credit_score : Option Int := none
  total_debt : Option Rat := none
  payment_history_score : Option Int := none
  account_age_months : Option Int := none
  has_defaults : Bool := false
  default_count : Int := 0
  monthly_obligations : Option Rat := none
  available_credit : Option Rat := none
  employment_verified : Bool := false
  income_verified : Bool := false
  rawError : Option String := none
deriving DecidableEq, Repr

/-- Truthiness of an `Optional[Decimal]` (`if x:`): present and nonzero. -/
def ratTruthy : Option Rat → Bool
  | none => false
  | some v => v ≠ 0

/-- Truthiness of an `Optional[int]` (`if x:`): present and nonzero. -/
def intTruthy : Option Int → Bool
  | none => false
  | some v => v ≠ 0

/-! ## Spain strategy (`strategies/spain.py`)

Python `Decimal` arithmetic (28 significant digits) is modelled by exact
`Rat` arithmetic, and `int(float(x))` for non-negative `x` by `Int.floor`;
none of the proved claims depends on the rounding tail. -/

namespace SpainStrategy

def DNI_LETTERS : List Char := "TRWAGMYFPDXBNJZSQVHLCKE".data

/-- Parse a decimal digit string (`int(s)`). -/
def parseDigits (l : List Char) : Nat :=
  l.foldl (fun n c => n * 10 + (c.toNat - 48)) 0

/-- Normalisation in `validate_document`:
`document_number.upper().replace(" ", "").replace("-", "")`. -/
def normalizeDoc (s : String) : List Char :=
  (pyUpper s).data.filter (fun c => c ≠ ' ' ∧ c ≠ '-')

/-- `SpainStrategy._validate_dni`. -/
def validate_dni (dni : List Char) : ValidationResult :=
  let r : ValidationResult := { is_valid := true }
  if dni.length ≠ 9 then
    r.add_error "DNI must be 9 characters (8 digits + 1 letter)."
  else
    let number_part := dni.dropLast
    let letter := dni.getLastD ' '
    if ¬ number_part.all Char.isDigit then
      r.add_error "DNI must start with 8 digits."
    else if ¬ letter.isAlpha then
      r.add_error "DNI must end with a letter."
    else
      let expected := (DNI_LETTERS.get? (parseDigits number_part % 23)).getD '?'
      if letter ≠ expected then
        r.add_error "Invalid DNI checksum."
      else r

/-- `SpainStrategy._validate_nie`. -/
def validate_nie (nie : List Char) : ValidationResult :=
  let r : ValidationResult := { is_valid := true }
  if nie.length ≠ 9 then
    r.add_error "NIE must be 9 characters."
  else
    let first := nie.headD ' '
    if first ≠ 'X' ∧ first ≠ 'Y' ∧ first ≠ 'Z' then
      r.add_error "NIE must start with X, Y, or Z."
    else
      let prefixDigit : Char := if first = 'X' then '0' else if first = 'Y' then '1' else '2'
      let middle := (nie.drop 1).dropLast
      if ¬ middle.all Char.isDigit then
        r.add_error "NIE must have 7 digits after the prefix."
      else
        let expected :=
          (DNI_LETTERS.get? (parseDigits (prefixDigit :: middle) % 23)).getD '?'
        if nie.getLastD ' ' ≠ expected then
          r.add_error "Invalid NIE checksum."
        else r

/-- `SpainStrategy.validate_document`. -/
def validate_document (document_type document_number : String) : ValidationResult :=
  let doc := normalizeDoc document_number
  if pyUpper document_type = "DNI" then validate_dni doc
  else if pyUpper document_type = "NIE" then validate_nie doc
  else ValidationResult.add_error { is_valid := true }
    "Unsupported document type for Spain. Expected DNI or NIE."

/-- Rule 1 of `SpainStrategy.validate_business_rules`: amounts above
EUR 15000 require review. -/
def rule1 (amount_requested : Rat) (r : ValidationResult) : ValidationResult :=
  if amount_requested > 15000 then
    { ((r.add_warning "Amount exceeds review threshold. Manual review required."
       ).setRF "high_amount" (.b true)) with requires_review := true }
  else r

/-- Rules 2–4 and the defaults check of
`SpainStrategy.validate_business_rules` (the `if banking_info:` block). -/
def bankingRules (amount_requested monthly_income : Rat) (b : BankingInfo)
    (r : ValidationResult) : ValidationResult :=
  -- Rule 2: debt-to-income ratio
  let r :=
    if ratTruthy b.monthly_obligations ∧ monthly_income > 0 then
      let total_monthly_debt := b.monthly_obligations.getD 0
      let estimated_payment := amount_requested / 36
      let newDebtRat := (total_monthly_debt + estimated_payment) / monthly_income
      let r := r.setRF "debt_to_income_ratio" (.q newDebtRat)
      if newDebtRat > (60 : Rat) / 100 then
        r.add_error "Debt-to-income ratio exceeds maximum allowed."
      else r
    else r
  -- Rule 3: payment history
  let r :=
    match b.payment_history_score with
    | some phs =>
        let r := r.setRF "payment_history_score" (.i phs)
        if phs < 50 then
          r.add_error "Payment history score is below minimum required."
        else r
    | none => r
  -- Rule 4: account age (warning only)
  let r :=
    match b.account_age_months with
    | some age =>
        let r := r.setRF "account_age_months" (.i age)
        if age < 6 then
          r.add_warning "Account age is below recommended 6 months."
        else r
    | none => r
  -- Defaults check
  if b.has_defaults then
    { (((r.add_warning "Applicant has previous defaults. Manual review required."
        ).setRF "has_defaults" (.b true)).setRF "default_count" (.i b.default_count))
      with requires_review := true }
  else r

/-- `SpainStrategy.validate_business_rules` (`strategies/spain.py:142`). -/
def validate_business_rules (amount_requested monthly_income : Rat)
    (banking_info : Option BankingInfo) : ValidationResult :=
  let r := rule1 amount_requested { is_valid := true }
  match banking_info with
  | some b => bankingRules amount_requested monthly_income b r
  | none => r

/-- `SpainStrategy.calculate_risk_score` (`strategies/spain.py:254`). -/
def calculate_risk_score (amount_requested monthly_income : Rat)
    (banking_info : Option BankingInfo) : Int :=
  let score : Int := 500
  let score :=
    if monthly_income > 0 then
      score + min 300 (Int.floor (amount_requested / monthly_income * 50))
    else score
  let score :=
    match banking_info with
    | none => score
    | some b =>
        let score :=
          if intTruthy b.credit_score then
            score - 150 + max 0 (300 - (b.credit_score.getD 0 - 600))
          else score
        let score :=
          match b.payment_history_score with
          | some phs => score + (200 - phs * 2)
          | none => score
        if b.has_defaults then score + 100 + b.default_count * 50 else score
  max 0 (min 1000 score)

end SpainStrategy

/-! ## Mexico strategy (`strategies/mexico.py`), business rules only -/

namespace MexicoStrategy

/-- Rule 1: amounts above MXN 300000 require review. -/
def rule1 (amount_requested : Rat) (r : ValidationResult) : ValidationResult :=
  if amount_requested > 300000 then
    { ((r.add_warning "Amount exceeds review threshold. Manual review required."
       ).setRF "high_amount" (.b true)) with requires_review := true }
  else r

/-- Rule 2: amount-to-income ratio (`monthly_income > 0` guard with an
error in the `else` branch). -/
def rule2 (amount_requested monthly_income : Rat) (r : ValidationResult) :
    ValidationResult :=
  if monthly_income > 0 then
    let amtIncRat := amount_requested / monthly_income
    let r := r.setRF "amount_to_income_ratio" (.q amtIncRat)
    if amtIncRat > 6 then
      r.add_error "Requested amount exceeds maximum multiple of monthly income."
    else r
  else
    r.add_error "Monthly income must be greater than zero."

/-- Rule 3: credit score and defaults (requires banking info). -/
def rule3 (banking_info : Option BankingInfo) (r : ValidationResult) :
    ValidationResult :=
  match banking_info with
  | some b =>
      match b.credit_score with
      | some cs =>
          let r := r.setRF "credit_score" (.i cs)
          let r :=
            if cs < 550 then
              r.add_error "Credit score is below minimum required."
            else r
          if b.has_defaults then
            { ((r.add_warning "Applicant has defaults. Manual review required."
               ).setRF "has_defaults" (.b true)) with requires_review := true }
          else r
      | none => r
  | none => r

/-- `MexicoStrategy.validate_business_rules` (`strategies/mexico.py:139`). -/
def validate_business_rules (amount_requested monthly_income : Rat)
    (banking_info : Option BankingInfo) : ValidationResult :=
  rule3 banking_info
    (rule2 amount_requested monthly_income
      (rule1 amount_requested { is_valid := true }))

end MexicoStrategy

/-! ## Colombia strategy (`strategies/colombia.py`), business rules only -/

namespace ColombiaStrategy

/-- Rule 1: amounts above COP 50000000 require review. -/
def rule1 (amount_requested : Rat) (r : ValidationResult) : ValidationResult :=
  if amount_requested > 50000000 then
    { ((r.add_warning "Amount exceeds review threshold. Manual review required."
       ).setRF "high_amount" (.b true)) with requires_review := true }
  else r

/-- Rule 2: total debt-to-income ratio, guarded by
`if banking_info and monthly_income > 0` (no error when skipped). -/
def rule2 (amount_requested monthly_income : Rat)
    (banking_info : Option BankingInfo) (r : ValidationResult) :
    ValidationResult :=
  match banking_info with
  | some b =>
      if monthly_income > 0 then
        let existing_debt := b.monthly_obligations.getD 0
        let estimated_new_payment := amount_requested / 48
        let total_monthly_debt := existing_debt + estimated_new_payment
        let debtRat := total_monthly_debt / monthly_income
        let r := ((r.setRF "total_debt_to_income_ratio" (.q debtRat)
          ).setRF "existing_monthly_debt" (.q existing_debt)
          ).setRF "estimated_new_payment" (.q estimated_new_payment)
        let r :=
          if debtRat > (50 : Rat) / 100 then
            r.add_error "Total debt-to-income ratio exceeds maximum allowed."
          else r
        if ratTruthy b.total_debt then
          let annualDebtRat := b.total_debt.getD 0 / (monthly_income * 12)
          let r := r.setRF "annual_debt_ratio" (.q annualDebtRat)
          if annualDebtRat > 2 then
            r.add_warning "Existing debt is a high multiple of annual income."
          else r
        else r
      else r
  | none => r

/-- Rule 3: credit score and defaults. -/
def rule3 (banking_info : Option BankingInfo) (r : ValidationResult) :
    ValidationResult :=
  match banking_info with
  | some b =>
      match b.credit_score with
      | some cs =>
          let r := r.setRF "credit_score" (.i cs)
          let r :=
            if cs < 500 then
              r.add_error "Credit score is below minimum required."
            else r
          if b.has_defaults then
            { ((r.add_warning "Applicant reported with negative records."
               ).setRF "has_defaults" (.b true)) with requires_review := true }
          else r
      | none => r
  | none => r

/-- `ColombiaStrategy.validate_business_rules` (`strategies/colombia.py:111`). -/
def validate_business_rules (amount_requested monthly_income : Rat)
    (banking_info : Option BankingInfo) : ValidationResult :=
  rule3 banking_info
    (rule2 amount_requested monthly_income banking_info
      (rule1 amount_requested { is_valid := true }))

end ColombiaStrategy

/-! ## Brazil strategy (`strategies/brazil.py`), business rules only -/

namespace BrazilStrategy

/-- Rule 1: amounts above BRL 100000 require review. -/
def rule1 (amount_requested : Rat) (r : ValidationResult) : ValidationResult :=
  if amount_requested > 100000 then
    { ((r.add_warning "Amount exceeds review threshold. Manual review required."
       ).setRF "high_amount" (.b true)) with requires_review := true }
  else r

/-- Rule 2: Serasa score and negative records. -/
def rule2 (banking_info : Option BankingInfo) (r : ValidationResult) :
    ValidationResult :=
  match banking_info with
  | some b =>
      match b.credit_score with
      | some cs =>
          let r := r.setRF "serasa_score" (.i cs)
          let r :=
            if cs < 500 then
              r.add_error "Serasa score is below minimum required."
            else r
          if b.has_defaults then
            { ((r.add_warning "Applicant has negative records. Manual review required."
               ).setRF "negativado" (.b true)) with requires_review := true }
          else r
      | none => r
  | none => r

/-- Rule 3: monthly commitment ratio (`monthly_income > 0` guard with an
error in the `else` branch). -/
def rule3 (amount_requested monthly_income : Rat)
    (banking_info : Option BankingInfo) (r : ValidationResult) :
    ValidationResult :=
  if monthly_income > 0 then
    let estimated_payment := amount_requested / 36
    let existing_obligations :=
      match banking_info with
      | some b => if ratTruthy b.monthly_obligations then b.monthly_obligations.getD 0 else 0
      | none => 0
    let total_commitment := existing_obligations + estimated_payment
    let commitRat := total_commitment / monthly_income
    let r := (r.setRF "commitRat" (.q commitRat)
      ).setRF "estimated_payment" (.q estimated_payment)
    if commitRat > (35 : Rat) / 100 then
      r.add_error "Monthly commitment ratio exceeds maximum allowed."
    else r
  else
    r.add_error "Monthly income must be greater than zero."

/-- `BrazilStrategy.validate_business_rules` (`strategies/brazil.py:122`). -/
def validate_business_rules (amount_requested monthly_income : Rat)
    (banking_info : Option BankingInfo) : ValidationResult :=
  rule3 amount_requested monthly_income banking_info
    (rule2 banking_info
      (rule1 amount_requested { is_valid := true }))

end BrazilStrategy

/-! ## The strategy record and registry (`strategies/registry.py`)

A `CountryStrategy` bundles the per-country operations the service calls.
`fetch_banking_info` is an external provider call and is passed to the
service embedding as the already-fetched result.  The service operations
take the registry lookup as an argument (`StrategyRegistry.get`; the
lookup uppercases its key); concrete runs use a registry containing the
Spain strategy, whose operations are fully embedded. -/

structure Strategy where
  currency : String
  validate_document : String → String → ValidationResult
  validate_business_rules : Rat → Rat → Option BankingInfo → ValidationResult
  calculate_risk_score : Rat → Rat → Option BankingInfo → Int

def spainStrategy : Strategy :=
  { currency := "EUR"
    validate_document := SpainStrategy.validate_document
    validate_business_rules := SpainStrategy.validate_business_rules
    calculate_risk_score := SpainStrategy.calculate_risk_score }

/-- A registry with the Spain strategy registered (`StrategyRegistry.get`
uppercases the country code before lookup). -/
def esRegistry (country_code : String) : Option Strategy :=
  if pyUpper country_code = "ES" then some spainStrategy else none

/-! ## Rows and system state (`models/`) -/

/-- A `loan_applications` row (`models/loan.py`).  UUIDs are modelled as
`Nat` drawn from a counter; `extra_data` keeps the two keys the service
writes (`validation_warnings`, `risk_factors`). -/
structure LoanRow where
  id : Nat
  country_code : String
  document_type : String
  document_number : String
  document_hash : String
  full_name : String
  amount_requested : Rat
  monthly_income : Rat
  currency : String
  status : LoanStatus
  risk_score : Option Int
  requires_review : Bool
  banking_info : Option BankingInfo
  extraWarnings : List String := []
  extraRiskFactors : List (String × RiskVal) := []
  created_at : Int
  processed_at : Option Int := none
deriving DecidableEq, Repr

/-- A `loan_status_history` row (`models/loan_status_history.py`). -/
structure HistRow where
  loan_id : Nat
  previous_status : Option LoanStatus
  new_status : LoanStatus
  changed_by : Option Nat := none
  reason : Option String := none
  extra_data : Option (List (String × RiskVal)) := none
  created_at : Int
deriving DecidableEq, Repr

/-- A job payload (a JSON dict in the source); the fields are the keys the
code reads or writes. -/
structure Payload where
  loan_id : Option Nat := none
  country_code : Option String := none
  amount_requested : Option Rat := none
  risk_score : Option Int := none
  entity_type : Option String := none
  entity_id : Option Nat := none
  action : Option String := none
  actor_id : Option Nat := none
  changes_status_old : Option LoanStatus := none
  changes_status_new : Option LoanStatus := none
  notification_type : Option String := none
  result : Option String := none
deriving DecidableEq, Repr

/-- An `async_jobs` row (`models/job.py`); column defaults as in the
model (`status = PENDING`, `priority = 0`, `attempts = 0`,
`max_attempts = 3`). -/
structure Job where
  id : Nat
  queue_name : String
  payload : Payload
  status : JobStatus := .PENDING
  priority : Int := 0
  attempts : Nat := 0
  max_attempts : Nat := 3
  error : Option String := none
  scheduled_at : Int
  started_at : Option Int := none
  completed_at : Option Int := none
  locked_by : Option String := none
  locked_at : Option Int := none
  created_at : Int
deriving DecidableEq, Repr

/-- A `webhook_events` row (`models/webhook_event.py`). -/
structure WebhookEventRow where
  id : Nat
  source : String
  event_type : String
  signature : Option String := none
  processed : Bool := false
  processed_at : Option Int := none
  processing_error : Option String := none
  loan_id : Option Nat := none
  created_at : Int
deriving DecidableEq, Repr

/-- The persistent state the embedded operations act on: the four tables
plus id counters (database sequences / server-generated UUIDs). -/
structure SysState where
  loans : List LoanRow := []
  histories : List HistRow := []
  jobs : List Job := []
  events : List WebhookEventRow := []
  nextLoanId : Nat := 0
  nextJobId : Nat := 0
  nextEventId : Nat := 0
deriving DecidableEq, Repr

/-! ## Job queue (`repositories/job_repository.py`) -/

namespace JobRepository

/-- The WHERE clause of `dequeue`: same queue, `PENDING`, due. -/
def eligible (queue_name : String) (now : Int) (j : Job) : Bool :=
  j.queue_name = queue_name ∧ j.status = .PENDING ∧ j.scheduled_at ≤ now

/-- `a` strictly precedes `b` in `ORDER BY priority DESC, scheduled_at ASC`. -/
def jobBefore (a b : Job) : Bool :=
  a.priority > b.priority ∨ (a.priority = b.priority ∧ a.scheduled_at < b.scheduled_at)

/-- Index and value of the selected row: an eligible row no other eligible
row strictly precedes (the first such row; the SQL `LIMIT 1` picks an
arbitrary representative among order-ties). -/
def pickIdx (queue_name : String) (now : Int) : List Job → Option (Nat × Job)
  | [] => none
  | j :: t =>
      match pickIdx queue_name now t with
      | none =>
          if eligible queue_name now j then some (0, j) else none
      | some (k, b) =>
          if eligible queue_name now j ∧ ¬ jobBefore b j then some (0, j)
          else some (k + 1, b)

/-- The claim-step of `dequeue`: `status → RUNNING`, lock fields and
`started_at` set, `attempts += 1`. -/
def claimJob (j : Job) (worker_id : String) (now : Int) : Job :=
  { j with
    status := .RUNNING
    locked_by := some worker_id
    locked_at := some now
    started_at := some now
    attempts := j.attempts + 1 }

/-- `JobRepository.dequeue` (`repositories/job_repository.py:56`). -/
def dequeue (queue_name worker_id : String) (now : Int) (jobs : List Job) :
    List Job × Option Job :=
  match pickIdx queue_name now jobs with
  | none => (jobs, none)
  | some (k, j) =>
      let j' := claimJob j worker_id now
      (jobs.set k j', some j')

/-- `JobRepository.enqueue` (`repositories/job_repository.py:22`). -/
def enqueue (queue_name : String) (payload : Payload) (priority : Int)
    (scheduled_at : Option Int) (max_attempts : Nat) (now : Int)
    (jobs : List Job) (nextId : Nat) : List Job × Nat × Job :=
  let job : Job :=
    { id := nextId
      queue_name := queue_name
      payload := payload
      status := .PENDING
      priority := priority
      scheduled_at := scheduled_at.getD now
      max_attempts := max_attempts
      created_at := now }
  (jobs ++ [job], nextId + 1, job)

/-- `JobRepository.complete` (`repositories/job_repository.py:110`).
Rows are keyed by unique id; the update is expressed as a map. -/
def complete (job_id : Nat) (result_data : Option String) (now : Int)
    (jobs : List Job) : List Job :=
  jobs.map fun j =>
    if j.id = job_id then
      { j with
        status := .COMPLETED
        completed_at := some now
        locked_by := none
        locked_at := none
        payload :=
          match result_data with
          | some r => { j.payload with result := some r }
          | none => j.payload }
    else j

/-- `JobRepository.fail` (`repositories/job_repository.py:147`). -/
def fail (job_id : Nat) (error : String) (retry : Bool)
    (retry_delay_seconds : Int) (now : Int) (jobs : List Job) : List Job :=
  jobs.map fun j =>
    if j.id = job_id then
      let j := { j with error := some error, locked_by := none, locked_at := none }
      if retry ∧ j.attempts < j.max_attempts then
        { j with status := .PENDING, scheduled_at := now + retry_delay_seconds }
      else
        { j with status := .FAILED, completed_at := some now }
    else j

/-- `JobRepository.cancel` (`repositories/job_repository.py:192`): the
select filters on `status = PENDING`. -/
def cancel (job_id : Nat) (now : Int) (jobs : List Job) : List Job :=
  jobs.map fun j =>
    if j.id = job_id ∧ j.status = .PENDING then
      { j with status := .CANCELLED, completed_at := some now }
    else j

/-- `JobRepository.release_stale_locks` (`repositories/job_repository.py:224`):
every RUNNING row with `locked_at < now − timeout` back to PENDING. -/
def release_stale_locks (lock_timeout_seconds : Int) (now : Int)
    (jobs : List Job) : List Job :=
  jobs.map fun j =>
    if j.status = .RUNNING ∧ (j.locked_at.getD (now - lock_timeout_seconds)) < now - lock_timeout_seconds then
      { j with
        status := .PENDING
        locked_by := none
        locked_at := none
        error := some "Released due to stale lock" }
    else j

end JobRepository

/-- One queue operation together with the wall-clock instant it runs at
(claim C4 quantifies over sequences of these). -/
inductive QOp where
  | enqueue (queue_name : String) (payload : Payload) (priority : Int)
      (scheduled_at : Option Int) (max_attempts : Nat) (now : Int)
  | dequeue (queue_name worker_id : String) (now : Int)
  | complete (job_id : Nat) (result_data : Option String) (now : Int)
  | fail (job_id : Nat) (error : String) (retry : Bool) (delay : Int) (now : Int)
  | cancel (job_id : Nat) (now : Int)
  | releaseStale (timeout : Int) (now : Int)
deriving DecidableEq, Repr

/-- State seen by the queue alone: rows plus the id sequence. -/
structure QueueSt where
  jobs : List Job := []
  nextId : Nat := 0
deriving DecidableEq, Repr

/-- Apply one queue operation. -/
def applyQOp (st : QueueSt) : QOp → QueueSt
  | .enqueue q p prio sched maxA now =>
      let (jobs, nextId, _) := JobRepository.enqueue q p prio sched maxA now st.jobs st.nextId
      { jobs := jobs, nextId := nextId }
  | .dequeue q w now => { st with jobs := (JobRepository.dequeue q w now st.jobs).1 }
  | .complete id r now => { st with jobs := JobRepository.complete id r now st.jobs }
  | .fail id e retry d now => { st with jobs := JobRepository.fail id e retry d now st.jobs }
  | .cancel id now => { st with jobs := JobRepository.cancel id now st.jobs }
  | .releaseStale t now => { st with jobs := JobRepository.release_stale_locks t now st.jobs }

/-- Run a sequence of queue operations from a state. -/
def runQOps (st : QueueSt) (ops : List QOp) : QueueSt :=
  ops.foldl applyQOp st

/-! ## Loan store (`repositories/loan_repository.py`) -/

namespace LoanRepository

/-- `LoanRepository.get_by_id`. -/
def get_by_id (loan_id : Nat) (st : SysState) : Option LoanRow :=
  st.loans.find? (fun l => l.id = loan_id)

/-- The row with the greatest `created_at` (first such row on ties;
`ORDER BY created_at DESC LIMIT 1` picks an arbitrary tie representative). -/
def mostRecent : List LoanRow → Option LoanRow
  | [] => none
  | l :: t =>
      match mostRecent t with
      | none => some l
      | some m => if m.created_at > l.created_at then some m else some l

/-- `LoanRepository.get_by_document_hash` (`loan_repository.py:90`):
filter by hash (and country when given), most recent `created_at` first,
`LIMIT 1`. -/
def get_by_document_hash (document_hash : String) (country_code : Option String)
    (st : SysState) : Option LoanRow :=
  mostRecent (st.loans.filter fun l =>
    (l.document_hash = document_hash : Bool) &&
      (match country_code with
       | some c => (l.country_code = c : Bool)
       | none => true))

/-- `LoanRepository.create` (`loan_repository.py:21`): insert the row and
the initial history row (`previous_status = null`) in one transaction. -/
def create (country_code document_type document_number document_hash
    full_name : String) (amount_requested monthly_income : Rat)
    (currency : String) (status : LoanStatus) (risk_score : Option Int)
    (requires_review : Bool) (banking_info : Option BankingInfo)
    (extraWarnings : List String) (extraRiskFactors : List (String × RiskVal))
    (now : Int) (st : SysState) : SysState × LoanRow :=
  let loan : LoanRow :=
    { id := st.nextLoanId
      country_code := country_code
      document_type := document_type
      document_number := document_number
      document_hash := document_hash
      full_name := full_name
      amount_requested := amount_requested
      monthly_income := monthly_income
      currency := currency
      status := status
      risk_score := risk_score
      requires_review := requires_review
      banking_info := banking_info
      extraWarnings := extraWarnings
      extraRiskFactors := extraRiskFactors
      created_at := now }
  let hist : HistRow :=
    { loan_id := loan.id
      previous_status := none
      new_status := status
      reason := some "Application created"
      created_at := now }
  ({ st with
      loans := st.loans ++ [loan]
      histories := st.histories ++ [hist]
      nextLoanId := st.nextLoanId + 1 }, loan)

/-- `LoanRepository.update_status` (`loan_repository.py:240`): set the new
status (and `processed_at` for APPROVED/REJECTED/DISBURSED), append a
history row; no transition-graph check at this layer. -/
def update_status (loan_id : Nat) (new_status : LoanStatus)
    (changed_by : Option Nat) (reason : Option String)
    (extra_data : Option (List (String × RiskVal))) (now : Int)
    (st : SysState) : SysState × Option LoanRow :=
  match get_by_id loan_id st with
  | none => (st, none)
  | some loan =>
      let loan' :=
        { loan with
          status := new_status
          processed_at :=
            if new_status = .APPROVED ∨ new_status = .REJECTED ∨ new_status = .DISBURSED
            then some now else loan.processed_at }
      let hist : HistRow :=
        { loan_id := loan_id
          previous_status := some loan.status
          new_status := new_status
          changed_by := changed_by
          reason := reason
          extra_data := extra_data
          created_at := now }
      ({ st with
          loans := st.loans.map (fun l => if l.id = loan_id then loan' else l)
          histories := st.histories ++ [hist] }, some loan')

end LoanRepository

/-! ## Application service (`services/loan_service.py`) -/

/-- The service-level error taxonomy (`core/exceptions.py`, as raised by
`LoanService`). -/
inductive ServiceError where
  | countryNotSupported (country_code : String)
  | validationError (message : String) (errors : List String)
  | loanNotFound (loan_id : Nat)
deriving DecidableEq, Repr

namespace LoanService

/-- `VALID_TRANSITIONS` (`services/loan_service.py:30`). -/
def VALID_TRANSITIONS : LoanStatus → List LoanStatus
  | .PENDING => [.VALIDATING, .CANCELLED]
  | .VALIDATING => [.IN_REVIEW, .APPROVED, .REJECTED]
  | .IN_REVIEW => [.APPROVED, .REJECTED]
  | .APPROVED => [.DISBURSED, .CANCELLED]
  | .REJECTED => []
  | .CANCELLED => []
  | .DISBURSED => [.COMPLETED]
  | .COMPLETED => []

/-- The banking info the service continues with: the fetched provider
result, or on provider error the synthetic `{CC}_UNAVAILABLE` fallback
(step 3 of `create_loan_application`). -/
def effectiveBanking (country_code : String)
    (fetchResult : Except String BankingInfo) : BankingInfo :=
  match fetchResult with
  | .ok b => b
  | .error e =>
      { provider_name := country_code ++ "_UNAVAILABLE", rawError := some e }

/-- The duplicate-check predicate of step 6 of
`create_loan_application`: status in {PENDING, VALIDATING, IN_REVIEW}. -/
def isActiveStatus (s : LoanStatus) : Bool :=
  s = .PENDING ∨ s = .VALIDATING ∨ s = .IN_REVIEW

/-- `LoanService.create_loan_application` (`services/loan_service.py:74`).

* `registry` is `StrategyRegistry.get` (dependency of the service);
* `fetchResult` is the outcome of `await strategy.fetch_banking_info`
  (external provider call): on error the service builds the synthetic
  `{CC}_UNAVAILABLE` banking info and continues;
* a raised exception is an `Except.error`; the state is returned only on
  success — the service raises before any row is written. -/
def create_loan_application (registry : String → Option Strategy)
    (country_code document_type document_number full_name : String)
    (amount_requested monthly_income : Rat)
    (fetchResult : Except String BankingInfo)
    (user_id : Option Nat) (now : Int) (st : SysState) :
    Except ServiceError (SysState × LoanRow) :=
  -- 1. country strategy
  match registry (pyUpper country_code) with
  | none => .error (.countryNotSupported country_code)
  | some strategy =>
    -- 2. validate document
    let doc_result := strategy.validate_document document_type document_number
    if ¬ doc_result.is_valid then
      .error (.validationError "Document validation failed" doc_result.errors)
    else
      -- 3. banking info, with the provider-failure fallback
      let banking_info : BankingInfo := effectiveBanking country_code fetchResult
      -- 4. business rules, merged with the document result
      let rules_result :=
        strategy.validate_business_rules amount_requested monthly_income (some banking_info)
      let combined_result := doc_result.merge rules_result
      if ¬ combined_result.is_valid then
        .error (.validationError "Business rules validation failed" combined_result.errors)
      else
        -- 5. risk score
        let risk_score :=
          strategy.calculate_risk_score amount_requested monthly_income (some banking_info)
        -- 6. duplicate-active check on the document hash
        let document_hash := hash_document document_number country_code
        let existing := LoanRepository.get_by_document_hash document_hash (some country_code) st
        if (existing.map (fun ex => isActiveStatus ex.status)).getD false then
          .error (.validationError "An active application already exists for this document"
            ["duplicate_application"])
        else
          -- 7. persist (document number and name are passed through as-is;
          -- the source carries `# TODO: Encrypt PII` on both fields)
          let (st, loan) := LoanRepository.create country_code document_type
            document_number document_hash full_name amount_requested monthly_income
            strategy.currency .PENDING (some risk_score) combined_result.requires_review
            (some banking_info) combined_result.warnings combined_result.risk_factors
            now st
          -- 8. enqueue the risk-evaluation job and the audit CREATE job
          let (jobs, nextId, _) := JobRepository.enqueue "risk_evaluation"
            { loan_id := some loan.id
              country_code := some country_code
              amount_requested := some amount_requested
              risk_score := some risk_score }
            (if combined_result.requires_review then 1 else 0) none 3 now st.jobs st.nextJobId
          let st := { st with jobs := jobs, nextJobId := nextId }
          let (jobs, nextId, _) := JobRepository.enqueue "audit"
            { entity_type := some "loan_application"
              entity_id := some loan.id
              action := some "CREATE"
              actor_id := user_id
              changes_status_old := none
              changes_status_new := some .PENDING }
            0 none 3 now st.jobs st.nextJobId
          let st := { st with jobs := jobs, nextJobId := nextId }
          .ok (st, loan)

/-- `LoanService.update_status` (`services/loan_service.py:340`): load,
check the transition against `VALID_TRANSITIONS`, delegate to the store,
enqueue the audit job and (for APPROVED/REJECTED) the notification job. -/
def update_status (loan_id : Nat) (new_status : LoanStatus)
    (changed_by : Option Nat) (reason : Option String) (now : Int)
    (st : SysState) : Except ServiceError (SysState × LoanRow) :=
  match LoanRepository.get_by_id loan_id st with
  | none => .error (.loanNotFound loan_id)
  | some loan =>
    let current_status := loan.status
    if ¬ (VALID_TRANSITIONS current_status).contains new_status then
      .error (.validationError "Cannot transition" ["Invalid status transition."])
    else
      match LoanRepository.update_status loan_id new_status changed_by reason none now st with
      | (st, some updated) =>
          let (jobs, nextId, _) := JobRepository.enqueue "audit"
            { entity_type := some "loan_application"
              entity_id := some loan_id
              action := some "STATUS_CHANGE"
              actor_id := changed_by
              changes_status_old := some current_status
              changes_status_new := some new_status }
            0 none 3 now st.jobs st.nextJobId
          let st := { st with jobs := jobs, nextJobId := nextId }
          let st :=
            if new_status = .APPROVED ∨ new_status = .REJECTED then
              let (jobs, nextId, _) := JobRepository.enqueue "notifications"
                { loan_id := some loan_id
                  notification_type := some "loan_status"
                  country_code := some loan.country_code }
                2 none 3 now st.jobs st.nextJobId
              { st with jobs := jobs, nextJobId := nextId }
            else st
          .ok (st, updated)
      | (_, none) =>
          -- unreachable: the load above just succeeded on the same state
          .error (.loanNotFound loan_id)

end LoanService

/-! ## Inbound banking webhook (`api/v1/webhooks/router.py`)

The handler first verifies the `X-Webhook-Signature` HMAC over the raw
body and returns 401 without touching any state when it is absent or
wrong; the embedding below is the processing that runs after a successful
verification. -/

/-- `payload.loan_reference`: either a parseable UUID (looked up by id) or
any other string (looked up against `document_hash`). -/
inductive LoanRef where
  | byId (id : Nat)
  | byHash (h : String)
deriving DecidableEq, Repr

/-- `BankingWebhookPayload` (`api/v1/webhooks/schemas.py`), the fields the
handler reads. -/
structure WebhookPayload where
  event_type : String
  loan_reference : LoanRef
  status : Option String := none
  risk_score : Option Int := none
deriving DecidableEq, Repr

/-- ASCII lowercase of one character (`str.lower`). -/
def pyLowerChar (c : Char) : Char :=
  if 'A' ≤ c ∧ c ≤ 'Z' then Char.ofNat (c.toNat + 32) else c

/-- `str.lower` (character-wise map). -/
def pyLower (s : String) : String :=
  ⟨s.data.map pyLowerChar⟩

/-- `status_mapping` in `receive_banking_webhook`. -/
def statusMapping (s : String) : Option LoanStatus :=
  if s = "approved" then some .APPROVED
  else if s = "rejected" then some .REJECTED
  else if s = "verified" then some .VALIDATING
  else if s = "disbursed" then some .DISBURSED
  else none

/-- `receive_banking_webhook` (`api/v1/webhooks/router.py:60`), after
signature verification.  The `document_hash` lookup uses
`scalar_one_or_none`, which raises when several rows match; that abort
(no state change) is the `Except.error` case. -/
def receive_banking_webhook (country_code : String) (p : WebhookPayload)
    (signature : String) (now : Int) (st : SysState) :
    Except String (SysState × Bool) :=
  let cc := pyUpper country_code
  let event : WebhookEventRow :=
    { id := st.nextEventId
      source := "banking_provider_" ++ cc
      event_type := p.event_type
      signature := some signature
      processed := false
      created_at := now }
  -- resolve the loan: by id when the reference parses as a UUID, else by
  -- document hash
  let loanFound : Except String (Option LoanRow) :=
    match p.loan_reference with
    | .byId i => .ok (LoanRepository.get_by_id i st)
    | .byHash h =>
        match st.loans.filter (fun l => (l.document_hash = h : Bool)) with
        | [] => .ok none
        | [l] => .ok (some l)
        | _ => .error "MultipleResultsFound"
  match loanFound with
  | .error e => .error e
  | .ok loan =>
    let event : WebhookEventRow := { event with loan_id := loan.map (fun l => l.id) }
    -- process: direct mutation of `loan.status` / `loan.risk_score`
    let stp : SysState × Bool :=
      match loan with
      | some l =>
          if (p.event_type = "status_update" : Bool) && (p.status.map (fun s => (s ≠ "" : Bool))).getD false then
            match statusMapping (pyLower (p.status.getD "")) with
            | some new_status =>
                if l.status ≠ new_status then
                  let l' : LoanRow :=
                    { l with
                      status := new_status
                      processed_at :=
                        if new_status = .APPROVED ∨ new_status = .REJECTED ∨
                            new_status = .DISBURSED
                        then some now else l.processed_at }
                  ({ st with loans := st.loans.map (fun x => if x.id = l.id then l' else x) },
                   true)
                else (st, false)
            | none => (st, false)
          else if (p.event_type = "risk_assessment" : Bool) && p.risk_score.isSome then
            let l' : LoanRow := { l with risk_score := p.risk_score }
            ({ st with loans := st.loans.map (fun x => if x.id = l.id then l' else x) }, true)
          else (st, false)
      | none => (st, false)
    let st := stp.1
    let processed := stp.2
    let event : WebhookEventRow :=
      { event with processed := processed
                   processed_at := if processed then some now else none }
    let (jobs, nextId, _) := JobRepository.enqueue "audit"
      { entity_type := some "webhook_event"
        entity_id := some event.id
        action := some "WEBHOOK_RECEIVED"
        loan_id := loan.map (fun l => l.id) }
      0 none 3 now st.jobs st.nextJobId
    .ok ({ st with
            events := st.events ++ [event]
            jobs := jobs
            nextJobId := nextId
            nextEventId := st.nextEventId + 1 }, processed)

/-! ## Risk-evaluation worker (`workers/risk_worker.py`) -/

namespace RiskEvaluationWorker

/-- The result dict returned by `RiskEvaluationWorker.process`. -/
structure ProcessResult where
  skipped : Bool := false
  loan_id : Option Nat := none
  old_status : Option LoanStatus := none
  new_status : Option LoanStatus := none
  risk_score : Option Int := none
deriving DecidableEq, Repr

/-- `RISK_THRESHOLD_APPROVE` (`workers/risk_worker.py:17`). -/
def RISK_THRESHOLD_APPROVE : Int := 300

/-- `RISK_THRESHOLD_REJECT` (`workers/risk_worker.py:18`). -/
def RISK_THRESHOLD_REJECT : Int := 700

/-- The automatic-decision rule of `process`
(`workers/risk_worker.py:91-99`): score ≤ 300 approves, ≥ 700 rejects,
anything between goes to manual review. -/
def autoDecision (risk_score : Int) : LoanStatus :=
  if risk_score ≤ RISK_THRESHOLD_APPROVE then .APPROVED
  else if risk_score ≥ RISK_THRESHOLD_REJECT then .REJECTED
  else .IN_REVIEW

/-- `RiskEvaluationWorker.process` (`workers/risk_worker.py:39`).
`payload.get("risk_score", 500)` is the decision input; a raised
exception is an `Except.error`. -/
def process (payload : Payload) (now : Int) (st : SysState) :
    Except String (SysState × ProcessResult) :=
  match payload.loan_id with
  | none => .error "loan_id is required in payload"
  | some loan_id =>
    let risk_score := payload.risk_score.getD 500
    let country_code := payload.country_code.getD ""
    match LoanRepository.get_by_id loan_id st with
    | none => .error "Loan not found"
    | some loan =>
      if loan.status ≠ .PENDING then
        .ok (st, { skipped := true })
      else
        let new_status : LoanStatus := autoDecision risk_score
        let (st, _) := LoanRepository.update_status loan_id .VALIDATING none
          (some "Risk evaluation started") none now st
        let (st, _) := LoanRepository.update_status loan_id new_status none
          (some "Automatic decision from risk score") none now st
        let st :=
          if new_status = .APPROVED ∨ new_status = .REJECTED then
            let (jobs, nextId, _) := JobRepository.enqueue "notifications"
              { loan_id := some loan_id
                notification_type := some "loan_status"
                country_code := some country_code
                risk_score := some risk_score }
              2 none 3 now st.jobs st.nextJobId
            { st with jobs := jobs, nextJobId := nextId }
          else st
        .ok (st, { loan_id := some loan_id
                   old_status := some .PENDING
                   new_status := some new_status
                   risk_score := some risk_score })

end RiskEvaluationWorker

/-! ## Invariant definitions, concrete cipher, scenario data -/

/-- A concrete cipher satisfying the Fernet contract: prepend one marker
character. -/
def prefixCipher : FernetCipher where
  enc s := ⟨'g' :: s.data⟩
  dec s := ⟨s.data.drop 1⟩
  dec_enc s := by cases s; rfl
  enc_ne s h := by
    have := congrArg String.data h
    simp at this

/-- Strengthened lock invariant (closed under all queue operations): a
RUNNING row has both lock fields set, every other row has both cleared. -/
def lockConsistent (j : Job) : Prop :=
  (j.status = .RUNNING ∧ j.locked_by.isSome ∧ j.locked_at.isSome) ∨
  (j.status ≠ .RUNNING ∧ j.locked_by = none ∧ j.locked_at = none)

/-- Attempts bookkeeping: a PENDING row has been claimed at most
`max_attempts` times, any row at most `max_attempts + 1` times. -/
def attemptsOk (j : Job) : Prop :=
  (j.status = .PENDING → j.attempts ≤ j.max_attempts) ∧
  j.attempts ≤ j.max_attempts + 1

def QOp.isReleaseStale : QOp → Bool
  | .releaseStale _ _ => true
  | _ => false

/-- The operation sequence of the counterexample: enqueue with
`max_attempts = 1`, then claim / stale-release / claim / stale-release /
claim. -/
def c4Ops : List QOp :=
  [.enqueue "q" {} 0 none 1 0,
   .dequeue "q" "w" 0,
   .releaseStale 10 1000,
   .dequeue "q" "w" 1000,
   .releaseStale 10 2000,
   .dequeue "q" "w" 2000]

instance : LawfulBEq LoanStatus where
  eq_of_beq := by
    intro x y h
    cases x <;> cases y <;> first | rfl | exact absurd h (by decide)
  rfl := by intro x; cases x <;> rfl

/-- Overwrite every stored risk score (the loan-row mutation a
`risk_assessment` webhook performs on the referenced loan). -/
def mapRS (rs : Option Int) (st : SysState) : SysState :=
  { st with loans := st.loans.map (fun l => { l with risk_score := rs }) }

namespace Examples

/-- The lookup hash of document `12345678Z` in country `ES`. -/
def esHash : String := LoanService.hash_document "12345678Z" "ES"

/-- An older application for that document, still `PENDING`. -/
def olderPending : LoanRow :=
  { id := 100
    country_code := "ES"
    document_type := "DNI"
    document_number := "12345678Z"
    document_hash := esHash
    full_name := "X"
    amount_requested := 5000
    monthly_income := 1000
    currency := "EUR"
    status := .PENDING
    risk_score := none
    requires_review := false
    banking_info := none
    created_at := 1 }

/-- A newer application for the same document, `REJECTED`. -/
def newerRejected : LoanRow :=
  { olderPending with id := 101, status := .REJECTED, created_at := 2 }

/-- Both rows persisted: the most recent is terminal, the older active. -/
def dupState : SysState := { loans := [olderPending, newerRejected], nextLoanId := 200 }

/-- Only the active (PENDING) row persisted. -/
def activeState : SysState := { loans := [olderPending], nextLoanId := 200 }

/-- Only the REJECTED row persisted. -/
def rejectedState : SysState := { loans := [newerRejected], nextLoanId := 300 }

/-- The create call of the concrete scenarios (valid ES DNI, provider
down, empty store). -/
def c1Create : Except ServiceError (SysState × LoanRow) :=
  LoanService.create_loan_application esRegistry "ES" "DNI" "12345678Z" "A B"
    10000 3000 (.error "provider down") none 0 {}

/-- An inbound `status_update → approved` webhook for loan 101. -/
def c2Webhook : WebhookPayload :=
  { event_type := "status_update", loan_reference := .byId 101, status := some "approved" }

/-- A risk-evaluation job payload for loan 100 with score 250. -/
def riskPayload : Payload :=
  { loan_id := some 100, country_code := some "ES", risk_score := some 250 }

/-- A risk-evaluation job payload for loan 100 without a score. -/
def riskPayloadNoScore : Payload := { loan_id := some 100 }

end Examples

/-! ## Helper lemmas -/

theorem add_error_is_valid (r : ValidationResult) (e : String) :
    (r.add_error e).is_valid = false := rfl

theorem add_warning_is_valid (r : ValidationResult) (w : String) :
    (r.add_warning w).is_valid = r.is_valid := rfl

theorem setRF_is_valid (r : ValidationResult) (k : String) (v : RiskVal) :
    (r.setRF k v).is_valid = r.is_valid := rfl

/-- Mexico rule 3 never clears an error. -/
theorem MexicoStrategy.rule3_false (b : Option BankingInfo) (r : ValidationResult)
    (h : r.is_valid = false) : (MexicoStrategy.rule3 b r).is_valid = false := by
  unfold MexicoStrategy.rule3
  cases b with
  | none => exact h
  | some bi =>
      cases hcs : bi.credit_score with
      | none => simp only [hcs]; exact h
      | some cs =>
          simp only [hcs]
          split_ifs <;>
            simp [ValidationResult.add_error, ValidationResult.add_warning,
              ValidationResult.setRF, h]

/-- Mexico rule 2 rejects a zero monthly income outright. -/
theorem MexicoStrategy.rule2_zero (a : Rat) (r : ValidationResult) :
    (MexicoStrategy.rule2 a 0 r).is_valid = false := by
  unfold MexicoStrategy.rule2
  rw [if_neg (by norm_num)]
  rfl

/-- Brazil rule 3 rejects a zero monthly income outright. -/
theorem BrazilStrategy.rule3_zero (a : Rat) (b : Option BankingInfo)
    (r : ValidationResult) : (BrazilStrategy.rule3 a 0 b r).is_valid = false := by
  unfold BrazilStrategy.rule3
  rw [if_neg (by norm_num)]
  rfl

/-! ## C6 -/

/-- C6 (counterexample): the Spain and Colombia strategies do NOT treat a
zero monthly income as a hard error — with amount 1000, income 0 and no
banking info both return `is_valid = true`, refuting the claim that every
registered country strategy rejects zero income. -/
theorem C6_counterexample :
    (SpainStrategy.validate_business_rules 1000 0 none).is_valid = true ∧
    (ColombiaStrategy.validate_business_rules 1000 0 none).is_valid = true := by
  constructor <;> rfl

/-- C6 (amended): zero monthly income is a hard validation error in the
Mexico and Brazil strategies, for every amount and banking info; Spain and
Colombia do not check income against zero. -/
theorem C6_zero_income_amended (amount : Rat) (banking : Option BankingInfo) :
    (MexicoStrategy.validate_business_rules amount 0 banking).is_valid = false ∧
    (BrazilStrategy.validate_business_rules amount 0 banking).is_valid = false := by
  constructor
  · exact MexicoStrategy.rule3_false _ _ (MexicoStrategy.rule2_zero _ _)
  · exact BrazilStrategy.rule3_zero _ _ _

/-! ## C9 -/

/-- C9: PII encryption round-trips — `decrypt (encrypt x) = x` for every
non-empty `x`, and both operations pass the empty string through
unchanged, for any cipher satisfying the Fernet library contract. -/
theorem C9_encrypt_decrypt_roundtrip (F : FernetCipher) (x : String)
    (hx : x ≠ "") :
    PIIEncryption.decrypt F (PIIEncryption.encrypt F x) = x ∧
    PIIEncryption.encrypt F "" = "" ∧
    PIIEncryption.decrypt F "" = "" := by
  refine ⟨?_, rfl, rfl⟩
  unfold PIIEncryption.encrypt PIIEncryption.decrypt
  rw [if_neg hx, if_neg (F.enc_ne x), F.dec_enc]

/-- No string is its own `prefixCipher` encryption (lengths differ). -/
theorem prefixCipher_enc_ne (s : String) : prefixCipher.enc s ≠ s := by
  intro h
  have := congrArg (fun t => t.data.length) h
  simp [prefixCipher] at this

/-- C9 witness: the round-trip evaluated on the concrete cipher at
`x = "a"`. -/
theorem C9_encrypt_decrypt_roundtrip_witness :
    ("a" : String) ≠ "" ∧
    PIIEncryption.decrypt prefixCipher (PIIEncryption.encrypt prefixCipher "a") = "a" :=
  ⟨by decide, (C9_encrypt_decrypt_roundtrip prefixCipher "a" (by decide)).1⟩

/-! ## C8 -/

theorem pyUpper_append (a b : String) : pyUpper (a ++ b) = pyUpper a ++ pyUpper b := by
  unfold pyUpper
  apply String.ext
  simp [String.data_append]

theorem dropWhile_append_all {p : Char → Bool} (u v : List Char)
    (h : ∀ x ∈ u, p x = true) :
    (u ++ v).dropWhile p = v.dropWhile p := by
  induction u with
  | nil => rfl
  | cons a t ih =>
      have ha : p a = true := h a (by simp)
      simp only [List.cons_append, List.dropWhile_cons, ha, if_true]
      exact ih (fun x hx => h x (by simp [hx]))

theorem rstripList_append_space (l w : List Char)
    (hw : ∀ x ∈ w, isPySpace x = true) :
    rstripList (l ++ w) = rstripList l := by
  unfold rstripList
  rw [List.reverse_append, dropWhile_append_all w.reverse l.reverse
    (fun x hx => hw x (List.mem_reverse.mp hx))]

theorem pyUpperChar_space (c : Char) (h : isPySpace c = true) :
    pyUpperChar c = c := by
  simp only [isPySpace, decide_eq_true_eq] at h
  rcases h with h | h | h | h | h | h <;> subst h <;> decide

/-- C8 (counterexample): `hash_document` is NOT invariant under document
whitespace — `PIIEncryption.hash_document` changes under leading
whitespace (`.strip()` runs on `"CC:document"` after concatenation, so
interior whitespace after the colon survives), and
`LoanService.hash_document` never strips at all, changing even under
trailing whitespace. -/
theorem C8_hash_document_counterexample :
    PIIEncryption.hash_document " 123" "ES" ≠ PIIEncryption.hash_document "123" "ES" ∧
    LoanService.hash_document "123 " "ES" ≠ LoanService.hash_document "123" "ES" := by
  constructor <;> decide

/-- C8 (amended): both document hashes are invariant under the case of
the country code, and `PIIEncryption.hash_document` is additionally
invariant under trailing whitespace in the document; leading whitespace
in the document changes both digests, and trailing whitespace changes
`LoanService.hash_document`. -/
theorem C8_hash_document_amended :
    (∀ d c c', pyUpper c' = pyUpper c →
      PIIEncryption.hash_document d c' = PIIEncryption.hash_document d c ∧
      LoanService.hash_document d c' = LoanService.hash_document d c) ∧
    (∀ d w c, (∀ ch ∈ w.data, isPySpace ch = true) →
      PIIEncryption.hash_document (d ++ w) c = PIIEncryption.hash_document d c) := by
  constructor
  · intro d c c' h
    constructor
    · unfold PIIEncryption.hash_document
      rw [pyUpper_append, pyUpper_append, h, ← pyUpper_append, ← pyUpper_append]
    · unfold LoanService.hash_document
      rw [pyUpper_append, pyUpper_append, h, ← pyUpper_append, ← pyUpper_append]
  · intro d w c hw
    unfold PIIEncryption.hash_document
    have hdata : (pyUpper (c ++ ":" ++ (d ++ w))).data =
        (pyUpper (c ++ ":" ++ d)).data ++ (pyUpper w).data := by
      rw [show c ++ ":" ++ (d ++ w) = c ++ ":" ++ d ++ w by
            simp [String.ext_iff, String.data_append]]
      rw [pyUpper_append (c ++ ":" ++ d) w, String.data_append]
    have hwspace : ∀ x ∈ (pyUpper w).data, isPySpace x = true := by
      intro x hx
      simp only [pyUpper] at hx
      rcases List.mem_map.mp hx with ⟨ch, hch, rfl⟩
      rw [pyUpperChar_space ch (hw ch hch)]
      exact hw ch hch
    unfold pyStrip
    rw [hdata, rstripList_append_space _ _ hwspace]

/-- C8 witness: the amended invariances evaluated at concrete inputs
(`c' = "es"` vs `c = "ES"`, trailing blank in the document). -/
theorem C8_hash_document_amended_witness :
    (pyUpper "es" = pyUpper "ES" ∧
      PIIEncryption.hash_document "9" "es" = PIIEncryption.hash_document "9" "ES") ∧
    ((∀ ch ∈ (" " : String).data, isPySpace ch = true) ∧
      PIIEncryption.hash_document ("123" ++ " ") "ES" = PIIEncryption.hash_document "123" "ES") :=
  ⟨⟨by decide, (C8_hash_document_amended.1 "9" "ES" "es" (by decide)).1⟩,
   ⟨by decide, C8_hash_document_amended.2 "123" " " "ES" (by decide)⟩⟩

/-! ## C3 -/

theorem jobBefore_irrefl (a : Job) : JobRepository.jobBefore a a = false := by
  simp [JobRepository.jobBefore]

theorem jobBefore_asymm {a b : Job} (h : JobRepository.jobBefore a b = true) :
    JobRepository.jobBefore b a = false := by
  simp only [JobRepository.jobBefore, decide_eq_true_eq, decide_eq_false_iff_not] at *
  rcases h with h | ⟨h1, h2⟩ <;> [omega; (rw [h1]; omega)]

theorem jobBefore_trans_not {a b c : Job}
    (h1 : JobRepository.jobBefore a b = false)
    (h2 : JobRepository.jobBefore b c = false) :
    JobRepository.jobBefore a c = false := by
  simp only [JobRepository.jobBefore, decide_eq_false_iff_not, not_or, not_and,
    not_lt] at *
  obtain ⟨h1p, h1s⟩ := h1
  obtain ⟨h2p, h2s⟩ := h2
  constructor
  · omega
  · intro hpc
    have hab : a.priority = b.priority := by omega
    have hbc : b.priority = c.priority := by omega
    have := h1s hab
    have := h2s hbc
    omega

theorem pickIdx_eq_none (q : String) (now : Int) (l : List Job)
    (hall : ∀ j ∈ l, JobRepository.eligible q now j = false) :
    JobRepository.pickIdx q now l = none := by
  induction l with
  | nil => rfl
  | cons a t ih =>
      have ht : JobRepository.pickIdx q now t = none :=
        ih (fun j hj => hall j (List.mem_cons_of_mem a hj))
      simp only [JobRepository.pickIdx, ht]
      rw [if_neg]
      simp [hall a (List.mem_cons_self a t)]

theorem eligible_false_of_pickIdx_none (q : String) (now : Int) (l : List Job)
    (h : JobRepository.pickIdx q now l = none) :
    ∀ j ∈ l, JobRepository.eligible q now j = false := by
  induction l with
  | nil => intro j hj; simp at hj
  | cons a t ih =>
      simp only [JobRepository.pickIdx] at h
      cases hp : JobRepository.pickIdx q now t with
      | none =>
          rw [hp] at h
          dsimp only at h
          intro j hj
          by_cases he : JobRepository.eligible q now a = true
          · rw [if_pos he] at h; exact Option.noConfusion h
          · rcases List.mem_cons.mp hj with rfl | hjt
            · simpa using he
            · exact ih hp j hjt
      | some kb =>
          rcases kb with ⟨k, b⟩
          rw [hp] at h
          dsimp only at h
          split_ifs at h

theorem pickIdx_some_spec (q : String) (now : Int) (l : List Job) (k : Nat) (b : Job)
    (h : JobRepository.pickIdx q now l = some (k, b)) :
    ∃ hk : k < l.length,
      l.get ⟨k, hk⟩ = b ∧ JobRepository.eligible q now b = true ∧
      ∀ i (hi : i < l.length),
        JobRepository.eligible q now (l.get ⟨i, hi⟩) = true →
        JobRepository.jobBefore (l.get ⟨i, hi⟩) b = false := by
  induction l generalizing k b with
  | nil => simp [JobRepository.pickIdx] at h
  | cons a t ih =>
      simp only [JobRepository.pickIdx] at h
      cases hp : JobRepository.pickIdx q now t with
      | none =>
          rw [hp] at h
          dsimp only at h
          by_cases he : JobRepository.eligible q now a = true
          · rw [if_pos he] at h
            obtain ⟨rfl, rfl⟩ : k = 0 ∧ a = b := by
              cases h; exact ⟨rfl, rfl⟩
            refine ⟨by simp, rfl, he, ?_⟩
            intro i hi helig
            match i with
            | 0 => exact jobBefore_irrefl a
            | i + 1 =>
                exfalso
                have hall := eligible_false_of_pickIdx_none q now t hp
                have hm : t.get ⟨i, by simpa using hi⟩ ∈ t := List.get_mem t i _
                have := hall _ hm
                simp only [List.get_cons_succ] at helig
                rw [helig] at this
                exact Bool.noConfusion this
          · rw [if_neg he] at h
            exact Option.noConfusion h
      | some kb =>
          rcases kb with ⟨k', b'⟩
          rw [hp] at h
          dsimp only at h
          obtain ⟨hk', hget', helig', hmin'⟩ := ih k' b' hp
          by_cases hc : JobRepository.eligible q now a = true ∧
              ¬ JobRepository.jobBefore b' a = true
          · rw [if_pos hc] at h
            obtain ⟨rfl, rfl⟩ : k = 0 ∧ a = b := by
              cases h; exact ⟨rfl, rfl⟩
            refine ⟨by simp, rfl, hc.1, ?_⟩
            intro i hi helig
            match i with
            | 0 => exact jobBefore_irrefl a
            | i + 1 =>
                simp only [List.get_cons_succ] at helig ⊢
                have h1 := hmin' i (by simpa using hi) helig
                have h2 : JobRepository.jobBefore b' a = false := by
                  simpa using hc.2
                exact jobBefore_trans_not h1 h2
          · rw [if_neg hc] at h
            obtain ⟨rfl, rfl⟩ : k = k' + 1 ∧ b' = b := by
              cases h; exact ⟨rfl, rfl⟩
            refine ⟨by simpa using hk', by simpa using hget', helig', ?_⟩
            intro i hi helig
            match i with
            | 0 =>
                rcases Decidable.em (JobRepository.jobBefore b' a = true) with hba | hba
                · exact jobBefore_asymm hba
                · exact absurd ⟨helig, hba⟩ hc
            | i + 1 =>
                simp only [List.get_cons_succ] at helig ⊢
                exact hmin' i (by simpa using hi) helig

/-- C3: `dequeue` claims exactly the first due PENDING job of the queue in
`(priority DESC, scheduled_at ASC)` order — it returns `none` and leaves
the table unchanged iff no eligible job exists, and otherwise claims a
single eligible row no other eligible row strictly precedes, setting
`status := RUNNING`, `locked_by := worker`, `locked_at := started_at :=
now`, `attempts += 1`, all other columns and all other rows unchanged. -/
theorem C3_dequeue_claims_single_job (q w : String) (now : Int) (jobs : List Job) :
    ((∀ j ∈ jobs, JobRepository.eligible q now j = false) →
        JobRepository.dequeue q w now jobs = (jobs, none)) ∧
    ((JobRepository.dequeue q w now jobs).2 = none →
        JobRepository.dequeue q w now jobs = (jobs, none) ∧
        ∀ j ∈ jobs, JobRepository.eligible q now j = false) ∧
    (∀ j', (JobRepository.dequeue q w now jobs).2 = some j' →
      ∃ (k : Nat) (hk : k < jobs.length),
        JobRepository.eligible q now (jobs.get ⟨k, hk⟩) = true ∧
        (∀ i (hi : i < jobs.length),
          JobRepository.eligible q now (jobs.get ⟨i, hi⟩) = true →
          JobRepository.jobBefore (jobs.get ⟨i, hi⟩) (jobs.get ⟨k, hk⟩) = false) ∧
        j' = JobRepository.claimJob (jobs.get ⟨k, hk⟩) w now ∧
        j'.status = .RUNNING ∧ j'.locked_by = some w ∧ j'.locked_at = some now ∧
        j'.started_at = some now ∧
        j'.attempts = (jobs.get ⟨k, hk⟩).attempts + 1 ∧
        (JobRepository.dequeue q w now jobs).1 = jobs.set k j' ∧
        ∀ i, i ≠ k →
          ((JobRepository.dequeue q w now jobs).1).get? i = jobs.get? i) := by
  refine ⟨?_, ?_, ?_⟩
  · intro hall
    unfold JobRepository.dequeue
    rw [pickIdx_eq_none q now jobs hall]
  · intro hnone
    unfold JobRepository.dequeue at hnone ⊢
    cases hp : JobRepository.pickIdx q now jobs with
    | none =>
        refine ⟨rfl, eligible_false_of_pickIdx_none q now jobs hp⟩
    | some kb =>
        rcases kb with ⟨k, b⟩
        rw [hp] at hnone
        dsimp only at hnone
        exact absurd hnone (by simp)
  · intro j' hsome
    unfold JobRepository.dequeue at hsome ⊢
    cases hp : JobRepository.pickIdx q now jobs with
    | none =>
        rw [hp] at hsome
        dsimp only at hsome
        exact absurd hsome (by simp)
    | some kb =>
        rcases kb with ⟨k, b⟩
        rw [hp] at hsome
        dsimp only at hsome ⊢
        obtain ⟨hk, hget, helig, hmin⟩ := pickIdx_some_spec q now jobs k b hp
        have hj' : JobRepository.claimJob b w now = j' := by
          injection hsome
        subst hj'
        refine ⟨k, hk, ?_, ?_, ?_, rfl, rfl, rfl, rfl, ?_, rfl, ?_⟩
        · rw [hget]; exact helig
        · intro i hi he
          rw [hget]
          exact hmin i hi he
        · rw [hget]
        · rw [hget]
          rfl
        · intro i hne
          exact List.get?_set_ne _ _ (fun hkk => hne hkk.symm)

/-- C3 witness: on a one-job queue whose job is not yet due, `dequeue`
returns `none` and leaves the table unchanged. -/
theorem C3_dequeue_claims_single_job_witness :
    JobRepository.dequeue "q" "w" 0
        [{ id := 1, queue_name := "q", payload := {}, scheduled_at := 5,
           created_at := 0 }] =
      ([{ id := 1, queue_name := "q", payload := {}, scheduled_at := 5,
          created_at := 0 }], none) :=
  (C3_dequeue_claims_single_job "q" "w" 0 _).1 (by decide)

/-! ## C4 -/

theorem lockConsistent_applyQOp (st : QueueSt) (op : QOp)
    (h : ∀ j ∈ st.jobs, lockConsistent j) :
    ∀ j ∈ (applyQOp st op).jobs, lockConsistent j := by
  cases op with
  | enqueue q p prio sched maxA now =>
      intro j hj
      simp only [applyQOp, JobRepository.enqueue] at hj
      rcases List.mem_append.mp hj with hj | hj
      · exact h j hj
      · simp only [List.mem_singleton] at hj
        subst hj
        right
        exact ⟨by simp, rfl, rfl⟩
  | dequeue q wkr now =>
      intro j hj
      simp only [applyQOp] at hj
      unfold JobRepository.dequeue at hj
      cases hp : JobRepository.pickIdx q now st.jobs with
      | none =>
          rw [hp] at hj
          exact h j hj
      | some kb =>
          rcases kb with ⟨k, b⟩
          rw [hp] at hj
          dsimp only at hj
          rcases List.mem_or_eq_of_mem_set hj with hj | rfl
          · exact h j hj
          · left
            exact ⟨rfl, rfl, rfl⟩
  | complete id r now =>
      intro j hj
      simp only [applyQOp, JobRepository.complete] at hj
      rcases List.mem_map.mp hj with ⟨x, hx, rfl⟩
      by_cases hid : x.id = id
      · simp only [hid, if_true]
        right
        refine ⟨by simp, rfl, rfl⟩
      · simp only [hid, if_false]
        exact h x hx
  | fail id e retry d now =>
      intro j hj
      simp only [applyQOp, JobRepository.fail] at hj
      rcases List.mem_map.mp hj with ⟨x, hx, rfl⟩
      by_cases hid : x.id = id
      · simp only [hid, if_true]
        by_cases hr : retry ∧ x.attempts < x.max_attempts
        · simp only [hr, if_true]
          right
          exact ⟨by simp, rfl, rfl⟩
        · simp only [hr, if_false]
          right
          exact ⟨by simp, rfl, rfl⟩
      · simp only [hid, if_false]
        exact h x hx
  | cancel id now =>
      intro j hj
      simp only [applyQOp, JobRepository.cancel] at hj
      rcases List.mem_map.mp hj with ⟨x, hx, rfl⟩
      by_cases hid : x.id = id ∧ x.status = .PENDING
      · simp only [hid, if_true]
        rcases h x hx with ⟨hrun, _⟩ | ⟨_, hlb, hla⟩
        · rw [hid.2] at hrun
          exact absurd hrun (by simp)
        · right
          exact ⟨by simp, hlb, hla⟩
      · simp only [hid, if_false]
        exact h x hx
  | releaseStale t now =>
      intro j hj
      simp only [applyQOp, JobRepository.release_stale_locks] at hj
      rcases List.mem_map.mp hj with ⟨x, hx, rfl⟩
      by_cases hc : x.status = .RUNNING ∧ x.locked_at.getD (now - t) < now - t
      · simp only [hc, if_true]
        right
        exact ⟨by simp, rfl, rfl⟩
      · simp only [hc, if_false]
        exact h x hx

theorem attemptsOk_applyQOp (st : QueueSt) (op : QOp)
    (h : ∀ j ∈ st.jobs, attemptsOk j) (hop : op.isReleaseStale = false) :
    ∀ j ∈ (applyQOp st op).jobs, attemptsOk j := by
  cases op with
  | enqueue q p prio sched maxA now =>
      intro j hj
      simp only [applyQOp, JobRepository.enqueue] at hj
      rcases List.mem_append.mp hj with hj | hj
      · exact h j hj
      · simp only [List.mem_singleton] at hj
        subst hj
        exact ⟨fun _ => by simp, by simp⟩
  | dequeue q wkr now =>
      intro j hj
      simp only [applyQOp] at hj
      unfold JobRepository.dequeue at hj
      cases hp : JobRepository.pickIdx q now st.jobs with
      | none =>
          rw [hp] at hj
          exact h j hj
      | some kb =>
          rcases kb with ⟨k, b⟩
          rw [hp] at hj
          dsimp only at hj
          rcases List.mem_or_eq_of_mem_set hj with hj | rfl
          · exact h j hj
          · obtain ⟨hk, hget, helig, _⟩ := pickIdx_some_spec q now st.jobs k b hp
            have hbmem : b ∈ st.jobs := hget ▸ List.get_mem st.jobs k hk
            have hbpend : b.status = .PENDING := by
              simp only [JobRepository.eligible, Bool.and_eq_true,
                decide_eq_true_eq] at helig
              exact helig.2.1
            have := (h b hbmem).1 hbpend
            exact ⟨fun hrun => by simp [JobRepository.claimJob] at hrun,
              by simp [JobRepository.claimJob]; omega⟩
  | complete id r now =>
      intro j hj
      simp only [applyQOp, JobRepository.complete] at hj
      rcases List.mem_map.mp hj with ⟨x, hx, rfl⟩
      by_cases hid : x.id = id
      · simp only [hid, if_true]
        exact ⟨fun hp => by simp at hp, (h x hx).2⟩
      · simp only [hid, if_false]
        exact h x hx
  | fail id e retry d now =>
      intro j hj
      simp only [applyQOp, JobRepository.fail] at hj
      rcases List.mem_map.mp hj with ⟨x, hx, rfl⟩
      by_cases hid : x.id = id
      · simp only [hid, if_true]
        by_cases hr : retry ∧ x.attempts < x.max_attempts
        · rw [if_pos hr]
          refine ⟨fun _ => ?_, ?_⟩ <;> simp <;> omega
        · rw [if_neg hr]
          refine ⟨fun hpend => ?_, ?_⟩
          · simp at hpend
          · simpa using (h x hx).2
      · simp only [hid, if_false]
        exact h x hx
  | cancel id now =>
      intro j hj
      simp only [applyQOp, JobRepository.cancel] at hj
      rcases List.mem_map.mp hj with ⟨x, hx, rfl⟩
      by_cases hid : x.id = id ∧ x.status = .PENDING
      · rw [if_pos hid]
        have hle := (h x hx).1 hid.2
        refine ⟨fun hpend => ?_, ?_⟩
        · simp at hpend
        · simp
          omega
      · rw [if_neg hid]
        exact h x hx
  | releaseStale t now => simp [QOp.isReleaseStale] at hop

theorem lockConsistent_runQOps (st : QueueSt) (ops : List QOp)
    (h : ∀ j ∈ st.jobs, lockConsistent j) :
    ∀ j ∈ (runQOps st ops).jobs, lockConsistent j := by
  induction ops generalizing st with
  | nil => exact h
  | cons op t ih => exact ih _ (lockConsistent_applyQOp st op h)

theorem attemptsOk_runQOps (st : QueueSt) (ops : List QOp)
    (h : ∀ j ∈ st.jobs, attemptsOk j)
    (hops : ∀ op ∈ ops, op.isReleaseStale = false) :
    ∀ j ∈ (runQOps st ops).jobs, attemptsOk j := by
  induction ops generalizing st with
  | nil => exact h
  | cons op t ih =>
      exact ih (applyQOp st op)
        (attemptsOk_applyQOp st op h (hops op (List.mem_cons_self op t)))
        (fun o ho => hops o (List.mem_cons_of_mem op ho))

/-- C4 (counterexample): `release_stale_locks` re-pends a RUNNING job
without consulting `attempts`, so claim → stale-release cycles push
`attempts` past `max_attempts + 1`: after `c4Ops` the job has
`attempts = 3` with `max_attempts = 1`. -/
theorem C4_counterexample :
    ∃ j ∈ (runQOps { jobs := [], nextId := 0 } c4Ops).jobs,
      j.max_attempts + 1 < j.attempts := by decide

/-- C4 (amended): after any operation sequence from a consistent state,
`status = RUNNING ⇔ (locked_by ≠ null ∧ locked_at ≠ null)`; and the bound
`attempts ≤ max_attempts + 1` holds after any sequence that contains no
`release_stale_locks` (stale-lock releases can exceed it, see the
counterexample). -/
theorem C4_job_invariants_amended (st : QueueSt) (ops : List QOp) :
    ((∀ j ∈ st.jobs, lockConsistent j) →
      ∀ j ∈ (runQOps st ops).jobs,
        (j.status = .RUNNING ↔ (j.locked_by ≠ none ∧ j.locked_at ≠ none))) ∧
    ((∀ j ∈ st.jobs, attemptsOk j) →
      (∀ op ∈ ops, op.isReleaseStale = false) →
      ∀ j ∈ (runQOps st ops).jobs, j.attempts ≤ j.max_attempts + 1) := by
  constructor
  · intro h j hj
    rcases lockConsistent_runQOps st ops h j hj with ⟨hrun, hlb, hla⟩ | ⟨hrun, hlb, hla⟩
    · constructor
      · intro _
        exact ⟨by simp [Option.isSome_iff_ne_none] at hlb; exact hlb,
               by simp [Option.isSome_iff_ne_none] at hla; exact hla⟩
      · intro _; exact hrun
    · constructor
      · intro hr; exact absurd hr hrun
      · intro ⟨hb, _⟩; exact absurd hlb hb
  · intro h hops j hj
    exact (attemptsOk_runQOps st ops h hops j hj).2

/-- C4 witness: the amended invariants evaluated after `c4Ops` from the
empty queue. -/
theorem C4_job_invariants_amended_witness :
    ∀ j ∈ (runQOps { jobs := [], nextId := 0 } c4Ops).jobs,
      (j.status = .RUNNING ↔ (j.locked_by ≠ none ∧ j.locked_at ≠ none)) :=
  (C4_job_invariants_amended { jobs := [], nextId := 0 } c4Ops).1
    (by intro j hj; simp at hj)

/-! ## Concrete scenario data and remaining helper definitions -/

/-! ## Store lemmas shared by C1, C2, C5, C7, C10 -/

/-- `LoanRepository.update_status` on a present row: the written row and
the appended history row, explicitly. -/
theorem store_update_spec (loan_id : Nat) (ns : LoanStatus) (cb : Option Nat)
    (reason : Option String) (extra : Option (List (String × RiskVal)))
    (now : Int) (st : SysState) (loan : LoanRow)
    (hg : LoanRepository.get_by_id loan_id st = some loan) :
    LoanRepository.update_status loan_id ns cb reason extra now st =
      ({ st with
          loans := st.loans.map (fun l =>
            if l.id = loan_id then
              { loan with
                status := ns
                processed_at :=
                  if ns = .APPROVED ∨ ns = .REJECTED ∨ ns = .DISBURSED
                  then some now else loan.processed_at }
            else l)
          histories := st.histories ++
            [{ loan_id := loan_id, previous_status := some loan.status,
               new_status := ns, changed_by := cb, reason := reason,
               extra_data := extra, created_at := now }] },
       some { loan with
              status := ns
              processed_at :=
                if ns = .APPROVED ∨ ns = .REJECTED ∨ ns = .DISBURSED
                then some now else loan.processed_at }) := by
  unfold LoanRepository.update_status
  rw [hg]

/-- `LoanRepository.update_status` on an absent row changes nothing. -/
theorem store_update_none (loan_id : Nat) (ns : LoanStatus) (cb : Option Nat)
    (reason : Option String) (extra : Option (List (String × RiskVal)))
    (now : Int) (st : SysState)
    (hg : LoanRepository.get_by_id loan_id st = none) :
    LoanRepository.update_status loan_id ns cb reason extra now st = (st, none) := by
  unfold LoanRepository.update_status
  rw [hg]

/-- Replacing the row with a given id rewires `get_by_id` to the new row. -/
theorem get_by_id_map_replace (loans : List LoanRow) (lid : Nat) (v : LoanRow)
    (hvid : v.id = lid) (loan : LoanRow)
    (h : loans.find? (fun l => l.id = lid) = some loan) :
    (loans.map (fun l => if l.id = lid then v else l)).find?
        (fun l => l.id = lid) = some v := by
  induction loans with
  | nil => simp at h
  | cons a t ih =>
      simp only [List.map_cons]
      by_cases ha : a.id = lid
      · rw [if_pos ha]
        rw [List.find?_cons_of_pos _ (by simpa using hvid)]
      · rw [if_neg ha]
        rw [List.find?_cons_of_neg _ (by simpa using ha)]
        rw [List.find?_cons_of_neg _ (by simpa using ha)] at h
        exact ih h

/-- `get_by_id` commutes with overwriting every row's risk score. -/
theorem get_by_id_mapRS (rs : Option Int) (st : SysState) (lid : Nat) :
    LoanRepository.get_by_id lid (mapRS rs st) =
      (LoanRepository.get_by_id lid st).map (fun l => { l with risk_score := rs }) := by
  unfold LoanRepository.get_by_id mapRS
  induction st.loans with
  | nil => rfl
  | cons a t ih =>
      simp only [List.map_cons]
      by_cases ha : a.id = lid
      · rw [List.find?_cons_of_pos _ (by simpa using ha),
            List.find?_cons_of_pos _ (by simpa using ha)]
        rfl
      · rw [List.find?_cons_of_neg _ (by simpa using ha),
            List.find?_cons_of_neg _ (by simpa using ha)]
        exact ih

/-! ## C1 -/

/-- C1 (code bug): the values persisted for `document_number` and
`full_name` by a successful `create_loan_application` are the submitted
plaintexts themselves (the source carries `# TODO: Encrypt PII` on both),
and no cipher that alters its input (Fernet always does) can have
produced them as encryptions of the submitted values. -/
theorem C1_pii_persisted_in_plaintext :
    Examples.c1Create.map (fun pr => (pr.2.document_number, pr.2.full_name)) =
      .ok ("12345678Z", "A B") ∧
    (∀ F : FernetCipher, (∀ s, F.enc s ≠ s) →
      PIIEncryption.encrypt F "12345678Z" ≠ "12345678Z" ∧
      PIIEncryption.encrypt F "A B" ≠ "A B") := by
  constructor
  · rfl
  · intro F hF
    constructor
    · show (if ("12345678Z" : String) = "" then "" else F.enc "12345678Z") ≠ "12345678Z"
      rw [if_neg (by decide)]
      exact hF _
    · show (if ("A B" : String) = "" then "" else F.enc "A B") ≠ "A B"
      rw [if_neg (by decide)]
      exact hF _

/-- C1 witness: the cipher-side inequality instantiated at the concrete
prefix cipher. -/
theorem C1_pii_persisted_in_plaintext_witness :
    (∀ s, prefixCipher.enc s ≠ s) ∧
    PIIEncryption.encrypt prefixCipher "12345678Z" ≠ "12345678Z" ∧
    PIIEncryption.encrypt prefixCipher "A B" ≠ "A B" :=
  ⟨prefixCipher_enc_ne,
   C1_pii_persisted_in_plaintext.2 prefixCipher prefixCipher_enc_ne⟩

/-! ## C5 -/

/-- C5 (counterexample): an older application for the same document and
country is still PENDING, yet creation succeeds, because the duplicate
check consults only the most recently created row (here the newer,
REJECTED one). -/
theorem C5_duplicate_check_counterexample :
    Examples.olderPending.status = .PENDING ∧
    Examples.olderPending.document_hash = LoanService.hash_document "12345678Z" "ES" ∧
    Examples.olderPending.country_code = "ES" ∧
    (LoanService.create_loan_application esRegistry "ES" "DNI" "12345678Z" "A B"
        10000 3000 (.error "provider down") none 5 Examples.dupState).toOption.isSome
      = true := by
  refine ⟨rfl, rfl, rfl, ?_⟩
  rfl

/-- C5 (amended): whenever the request passes country, document and
business-rule validation and the MOST RECENTLY CREATED application with
the same document hash and country has status in
{PENDING, VALIDATING, IN_REVIEW}, `create_loan_application` raises
`ValidationError` with code `duplicate_application` (and, raising before
any insert, persists nothing). -/
theorem C5_duplicate_check_amended
    (registry : String → Option Strategy) (cc dt dn fn : String)
    (amt inc : Rat) (fetch : Except String BankingInfo) (uid : Option Nat)
    (now : Int) (st : SysState) (strategy : Strategy)
    (hreg : registry (pyUpper cc) = some strategy)
    (hdoc : (strategy.validate_document dt dn).is_valid = true)
    (hrules : ((strategy.validate_document dt dn).merge
        (strategy.validate_business_rules amt inc
          (some (LoanService.effectiveBanking cc fetch)))).is_valid = true)
    (ex : LoanRow)
    (hex : LoanRepository.get_by_document_hash (LoanService.hash_document dn cc)
        (some cc) st = some ex)
    (hactive : LoanService.isActiveStatus ex.status = true) :
    LoanService.create_loan_application registry cc dt dn fn amt inc fetch uid now st =
      .error (.validationError "An active application already exists for this document"
        ["duplicate_application"]) := by
  unfold LoanService.create_loan_application
  rw [hreg]
  simp only [hdoc, hrules, hex, not_true, if_false, ite_false,
    Bool.false_eq_true]
  simp [hactive]

/-- C5 witness: the amended statement evaluated at the concrete scenario
(only the PENDING row persisted). -/
theorem C5_duplicate_check_amended_witness :
    LoanService.create_loan_application esRegistry "ES" "DNI" "12345678Z" "A B"
        10000 3000 (.error "provider down") none 5 Examples.activeState =
      .error (.validationError "An active application already exists for this document"
        ["duplicate_application"]) :=
  C5_duplicate_check_amended esRegistry "ES" "DNI" "12345678Z" "A B"
    10000 3000 (.error "provider down") none 5 Examples.activeState
    spainStrategy rfl (by rfl) (by rfl) Examples.olderPending (by rfl) rfl

/-! ## C2 -/

theorem loanStatus_contains_iff (l : List LoanStatus) (a : LoanStatus) :
    l.contains a = true ↔ a ∈ l := by
  induction l with
  | nil => simp
  | cons x t ih => simp [List.contains_cons, ih, beq_iff_eq]

/-- C2 (counterexample): the inbound banking webhook mutates the loan row
directly — a `status_update → approved` webhook on a REJECTED (terminal)
loan rewrites it to APPROVED, appends no `LoanStatusHistory` row, and
`REJECTED → APPROVED` is no §4.G edge (`VALID_TRANSITIONS REJECTED = []`). -/
theorem C2_status_mutation_counterexample :
    Examples.rejectedState.loans.map LoanRow.status = [.REJECTED] ∧
    Examples.rejectedState.histories = [] ∧
    LoanService.VALID_TRANSITIONS .REJECTED = [] ∧
    ((receive_banking_webhook "ES" Examples.c2Webhook "sig" 9
        Examples.rejectedState).map
      (fun pr => (pr.1.loans.map LoanRow.status, pr.1.histories.length, pr.2))) =
      .ok ([.APPROVED], 0, true) := by
  refine ⟨rfl, rfl, rfl, rfl⟩

/-- C2 (amended): on the service path every applied status change is a
§4.G edge (hence never leaves a terminal status) and appends exactly one
history row recording (previous_status, new_status); the store path
appends the history row for every applied change but does not itself
check the graph. -/
theorem C2_history_and_graph_amended :
    (∀ (loan_id : Nat) (ns : LoanStatus) (cb : Option Nat)
       (reason : Option String) (now : Int) (st st' : SysState) (updated : LoanRow),
       LoanService.update_status loan_id ns cb reason now st = .ok (st', updated) →
       ∃ loan, LoanRepository.get_by_id loan_id st = some loan ∧
         ns ∈ LoanService.VALID_TRANSITIONS loan.status ∧
         loan.status ≠ .REJECTED ∧ loan.status ≠ .CANCELLED ∧
         loan.status ≠ .COMPLETED ∧
         st'.histories = st.histories ++
           [{ loan_id := loan_id, previous_status := some loan.status,
              new_status := ns, changed_by := cb, reason := reason,
              created_at := now }]) ∧
    (∀ (loan_id : Nat) (ns : LoanStatus) (cb : Option Nat)
       (reason : Option String) (extra : Option (List (String × RiskVal)))
       (now : Int) (st st2 : SysState) (updated : LoanRow),
       LoanRepository.update_status loan_id ns cb reason extra now st =
         (st2, some updated) →
       ∃ loan, LoanRepository.get_by_id loan_id st = some loan ∧
         st2.histories = st.histories ++
           [{ loan_id := loan_id, previous_status := some loan.status,
              new_status := ns, changed_by := cb, reason := reason,
              extra_data := extra, created_at := now }]) := by
  constructor
  · intro loan_id ns cb reason now st st' updated h
    unfold LoanService.update_status at h
    cases hg : LoanRepository.get_by_id loan_id st with
    | none => rw [hg] at h; exact absurd h (by simp)
    | some loan =>
        rw [hg] at h
        dsimp only at h
        by_cases hc : (LoanService.VALID_TRANSITIONS loan.status).contains ns = true
        · rw [if_neg (fun hn => hn hc)] at h
          rw [store_update_spec loan_id ns cb reason none now st loan hg] at h
          dsimp only at h
          have hmem : ns ∈ LoanService.VALID_TRANSITIONS loan.status :=
            (loanStatus_contains_iff _ _).mp hc
          have hst' :
              st'.histories = st.histories ++
                [{ loan_id := loan_id, previous_status := some loan.status,
                   new_status := ns, changed_by := cb, reason := reason,
                   created_at := now }] := by
            by_cases hns : ns = .APPROVED ∨ ns = .REJECTED
            · rw [if_pos hns] at h
              have := congrArg (fun r : Except ServiceError (SysState × LoanRow) =>
                r.map (fun pr => pr.1.histories)) h
              simpa [Except.map] using this.symm
            · rw [if_neg hns] at h
              have := congrArg (fun r : Except ServiceError (SysState × LoanRow) =>
                r.map (fun pr => pr.1.histories)) h
              simpa [Except.map] using this.symm
          refine ⟨loan, rfl, hmem, ?_, ?_, ?_, hst'⟩
          · intro habs
            rw [habs] at hmem
            simp [LoanService.VALID_TRANSITIONS] at hmem
          · intro habs
            rw [habs] at hmem
            simp [LoanService.VALID_TRANSITIONS] at hmem
          · intro habs
            rw [habs] at hmem
            simp [LoanService.VALID_TRANSITIONS] at hmem
        · rw [if_pos (by simpa using hc)] at h
          exact absurd h (by simp)
  · intro loan_id ns cb reason extra now st st2 updated h
    cases hg : LoanRepository.get_by_id loan_id st with
    | none =>
        rw [store_update_none loan_id ns cb reason extra now st hg] at h
        exact absurd (congrArg Prod.snd h) (by simp)
    | some loan =>
        rw [store_update_spec loan_id ns cb reason extra now st loan hg] at h
        refine ⟨loan, rfl, ?_⟩
        have := congrArg (fun p : SysState × Option LoanRow => p.1.histories) h
        simpa using this.symm

/-- C2 witness: the amended service-path statement evaluated on the
concrete PENDING loan transitioning to VALIDATING. -/
theorem C2_history_and_graph_amended_witness :
    ∃ loan, LoanRepository.get_by_id 100 Examples.activeState = some loan ∧
      LoanStatus.VALIDATING ∈ LoanService.VALID_TRANSITIONS loan.status ∧
      loan.status ≠ .REJECTED ∧ loan.status ≠ .CANCELLED ∧
      loan.status ≠ .COMPLETED ∧
      (((LoanService.update_status 100 .VALIDATING none none 7
          Examples.activeState).toOption.map (fun pr => pr.1.histories)).getD []) =
        Examples.activeState.histories ++
          [{ loan_id := 100, previous_status := some loan.status,
             new_status := .VALIDATING, changed_by := none, reason := none,
             created_at := 7 }] := by
  obtain ⟨loan, hg, hmem, h1, h2, h3, hh⟩ :=
    C2_history_and_graph_amended.1 100 .VALIDATING none none 7
      Examples.activeState
      (((LoanService.update_status 100 .VALIDATING none none 7
          Examples.activeState).toOption.map Prod.fst).getD ({} : SysState))
      (((LoanService.update_status 100 .VALIDATING none none 7
          Examples.activeState).toOption.map Prod.snd).getD Examples.olderPending)
      (by rfl)
  exact ⟨loan, hg, hmem, h1, h2, h3, by rw [← hh]; rfl⟩

/-! ## C7 -/

/-- C7: a risk-evaluation job on an existing loan — if the loan is not
PENDING the worker returns a skip result and changes nothing; if it is
PENDING the worker performs exactly the two store transitions
`PENDING → VALIDATING` and `VALIDATING → final` (two history rows, in
order), where `final` is APPROVED for risk score ≤ 300, REJECTED for
risk score ≥ 700, and IN_REVIEW otherwise. -/
theorem C7_risk_worker_transitions (payload : Payload) (now : Int) (st : SysState)
    (lid : Nat) (hpid : payload.loan_id = some lid) (loan : LoanRow)
    (hloan : LoanRepository.get_by_id lid st = some loan) :
    (loan.status ≠ .PENDING →
      RiskEvaluationWorker.process payload now st = .ok (st, { skipped := true })) ∧
    (loan.status = .PENDING →
      ∃ st' res, RiskEvaluationWorker.process payload now st = .ok (st', res) ∧
        res.skipped = false ∧
        res.new_status =
          some (RiskEvaluationWorker.autoDecision (payload.risk_score.getD 500)) ∧
        (payload.risk_score.getD 500 ≤ 300 → res.new_status = some .APPROVED) ∧
        (payload.risk_score.getD 500 ≥ 700 → res.new_status = some .REJECTED) ∧
        (300 < payload.risk_score.getD 500 → payload.risk_score.getD 500 < 700 →
          res.new_status = some .IN_REVIEW) ∧
        st'.histories = st.histories ++
          [{ loan_id := lid, previous_status := some .PENDING,
             new_status := .VALIDATING, reason := some "Risk evaluation started",
             created_at := now },
           { loan_id := lid, previous_status := some .VALIDATING,
             new_status := RiskEvaluationWorker.autoDecision (payload.risk_score.getD 500),
             reason := some "Automatic decision from risk score",
             created_at := now }] ∧
        ∃ fl, LoanRepository.get_by_id lid st' = some fl ∧
          fl.status = RiskEvaluationWorker.autoDecision (payload.risk_score.getD 500)) := by
  have hid : loan.id = lid := by
    have := List.find?_some hloan
    simpa using this
  constructor
  · intro hne
    unfold RiskEvaluationWorker.process
    rw [hpid]
    dsimp only
    rw [hloan]
    dsimp only
    rw [if_pos hne]
  · intro hP
    unfold RiskEvaluationWorker.process
    rw [hpid]
    dsimp only
    rw [hloan]
    dsimp only
    rw [if_neg (fun hn => hn hP)]
    rw [store_update_spec lid .VALIDATING none (some "Risk evaluation started")
      none now st loan hloan]
    dsimp only
    set s : Int := payload.risk_score.getD 500 with hs
    set v1 : LoanRow :=
      { loan with
        status := .VALIDATING
        processed_at :=
          if (LoanStatus.VALIDATING = .APPROVED ∨ LoanStatus.VALIDATING = .REJECTED ∨
              LoanStatus.VALIDATING = .DISBURSED)
          then some now else loan.processed_at } with hv1
    have hg1 : LoanRepository.get_by_id lid
        ({ st with
            loans := st.loans.map (fun l => if l.id = lid then v1 else l)
            histories := st.histories ++
              [{ loan_id := lid, previous_status := some loan.status,
                 new_status := .VALIDATING, changed_by := none,
                 reason := some "Risk evaluation started", extra_data := none,
                 created_at := now }] } : SysState) = some v1 :=
      get_by_id_map_replace st.loans lid v1 (by rw [hv1]; exact hid) loan hloan
    rw [store_update_spec lid _ none (some "Automatic decision from risk score")
      none now _ v1 hg1]
    dsimp only
    refine ⟨_, _, rfl, rfl, rfl, ?_, ?_, ?_, ?_, ?_⟩
    · intro hle
      show some (RiskEvaluationWorker.autoDecision s) = some LoanStatus.APPROVED
      unfold RiskEvaluationWorker.autoDecision
        RiskEvaluationWorker.RISK_THRESHOLD_APPROVE
      rw [if_pos hle]
    · intro hge
      show some (RiskEvaluationWorker.autoDecision s) = some LoanStatus.REJECTED
      unfold RiskEvaluationWorker.autoDecision
        RiskEvaluationWorker.RISK_THRESHOLD_APPROVE
        RiskEvaluationWorker.RISK_THRESHOLD_REJECT
      rw [if_neg (by omega), if_pos hge]
    · intro hgt hlt
      show some (RiskEvaluationWorker.autoDecision s) = some LoanStatus.IN_REVIEW
      unfold RiskEvaluationWorker.autoDecision
        RiskEvaluationWorker.RISK_THRESHOLD_APPROVE
        RiskEvaluationWorker.RISK_THRESHOLD_REJECT
      rw [if_neg (by omega), if_neg (by omega)]
    · by_cases hns : RiskEvaluationWorker.autoDecision s = .APPROVED ∨
          RiskEvaluationWorker.autoDecision s = .REJECTED
      · rw [if_pos hns]
        dsimp only
        rw [hP]
        simp [List.append_assoc]
      · rw [if_neg hns]
        dsimp only
        rw [hP]
        simp [List.append_assoc]
    · refine ⟨{ v1 with
          status := RiskEvaluationWorker.autoDecision s
          processed_at :=
            if RiskEvaluationWorker.autoDecision s = .APPROVED ∨
                RiskEvaluationWorker.autoDecision s = .REJECTED ∨
                RiskEvaluationWorker.autoDecision s = .DISBURSED
            then some now else v1.processed_at }, ?_, rfl⟩
      by_cases hns : RiskEvaluationWorker.autoDecision s = .APPROVED ∨
          RiskEvaluationWorker.autoDecision s = .REJECTED
      · rw [if_pos hns]
        dsimp only
        exact get_by_id_map_replace _ lid _ (by dsimp only; exact hid) v1 hg1
      · rw [if_neg hns]
        dsimp only
        exact get_by_id_map_replace _ lid _ (by dsimp only; exact hid) v1 hg1

/-- C7 witness: the concrete PENDING loan with payload score 250 is
auto-approved through `PENDING → VALIDATING → APPROVED`. -/
theorem C7_risk_worker_transitions_witness :
    Examples.olderPending.status = .PENDING ∧
    ∃ st' res,
      RiskEvaluationWorker.process Examples.riskPayload 7 Examples.activeState =
        .ok (st', res) ∧
      res.skipped = false ∧
      res.new_status = some (RiskEvaluationWorker.autoDecision 250) ∧
      ((250 : Int) ≤ 300 → res.new_status = some .APPROVED) ∧
      ((250 : Int) ≥ 700 → res.new_status = some .REJECTED) ∧
      ((300 : Int) < 250 → (250 : Int) < 700 → res.new_status = some .IN_REVIEW) ∧
      st'.histories = Examples.activeState.histories ++
        [{ loan_id := 100, previous_status := some .PENDING,
           new_status := .VALIDATING, reason := some "Risk evaluation started",
           created_at := 7 },
         { loan_id := 100, previous_status := some .VALIDATING,
           new_status := RiskEvaluationWorker.autoDecision 250,
           reason := some "Automatic decision from risk score",
           created_at := 7 }] ∧
      ∃ fl, LoanRepository.get_by_id 100 st' = some fl ∧
        fl.status = RiskEvaluationWorker.autoDecision 250 :=
  ⟨rfl,
   (C7_risk_worker_transitions Examples.riskPayload 7 Examples.activeState 100
      rfl Examples.olderPending rfl).2 rfl⟩

/-! ## C10 -/

/-- C10: the risk worker's decision comes from the job payload's
`risk_score`, defaulting to 500 (hence IN_REVIEW) when absent; the risk
score stored on the loan row is never consulted — overwriting every
stored risk score (as a `risk_assessment` webhook does) leaves the
worker's result unchanged. -/
theorem C10_decision_from_payload_score (payload : Payload) (now : Int) :
    (payload.risk_score = none →
      ∀ st st' res, RiskEvaluationWorker.process payload now st = .ok (st', res) →
        res.skipped = true ∨ res.new_status = some .IN_REVIEW) ∧
    (∀ (rs : Option Int) (st : SysState),
      (RiskEvaluationWorker.process payload now (mapRS rs st)).map (fun pr => pr.2) =
        (RiskEvaluationWorker.process payload now st).map (fun pr => pr.2)) := by
  constructor
  · intro hrs st st' res h
    unfold RiskEvaluationWorker.process at h
    cases hpid : payload.loan_id with
    | none => rw [hpid] at h; exact absurd h (by simp)
    | some lid =>
        rw [hpid] at h
        dsimp only at h
        cases hg : LoanRepository.get_by_id lid st with
        | none =>
            rw [hg] at h
            dsimp only at h
            exact absurd h (by simp)
        | some loan =>
            rw [hg] at h
            dsimp only at h
            by_cases hP : loan.status = .PENDING
            · rw [if_neg (fun hn => hn hP), hrs] at h
              right
              have h2 := congrArg (fun p : SysState × RiskEvaluationWorker.ProcessResult =>
                p.2.new_status) (Except.ok.inj h)
              exact h2.symm.trans rfl
            · rw [if_pos hP] at h
              left
              have h2 := congrArg (fun p : SysState × RiskEvaluationWorker.ProcessResult =>
                p.2.skipped) (Except.ok.inj h)
              exact h2.symm
  · intro rs st
    unfold RiskEvaluationWorker.process
    cases hpid : payload.loan_id with
    | none => rfl
    | some lid =>
        dsimp only
        rw [get_by_id_mapRS rs st lid]
        cases hg : LoanRepository.get_by_id lid st with
        | none => rfl
        | some loan =>
            dsimp only [Option.map]
            by_cases hP : loan.status = .PENDING
            · simp only [if_neg (show ¬ (loan.status ≠ LoanStatus.PENDING) from
                fun hn => hn hP)]
              rfl
            · simp only [if_pos (show loan.status ≠ LoanStatus.PENDING from hP)]
              rfl

/-- C10 witness: on the concrete PENDING loan, a payload without a
`risk_score` decides IN_REVIEW. -/
theorem C10_decision_from_payload_score_witness :
    Examples.riskPayloadNoScore.risk_score = none ∧
    ((((RiskEvaluationWorker.process Examples.riskPayloadNoScore 7
          Examples.activeState).toOption.map
          (fun pr : SysState × RiskEvaluationWorker.ProcessResult => pr.2)).getD
          ({} : RiskEvaluationWorker.ProcessResult)).skipped = true ∨
     (((RiskEvaluationWorker.process Examples.riskPayloadNoScore 7
          Examples.activeState).toOption.map
          (fun pr : SysState × RiskEvaluationWorker.ProcessResult => pr.2)).getD
          ({} : RiskEvaluationWorker.ProcessResult)).new_status =
        some LoanStatus.IN_REVIEW) :=
  ⟨rfl,
   (C10_decision_from_payload_score Examples.riskPayloadNoScore 7).1 rfl
     Examples.activeState
     (((RiskEvaluationWorker.process Examples.riskPayloadNoScore 7
         Examples.activeState).toOption.map
         (fun pr : SysState × RiskEvaluationWorker.ProcessResult => pr.1)).getD
         ({} : SysState))
     (((RiskEvaluationWorker.process Examples.riskPayloadNoScore 7
         Examples.activeState).toOption.map
         (fun pr : SysState × RiskEvaluationWorker.ProcessResult => pr.2)).getD
         ({} : RiskEvaluationWorker.ProcessResult))
     (by rfl)⟩

end LoanSystem
